import Mathlib

-- Verification development for scripts/parse_config.py of the sui-tools
-- repository: a shallow embedding of its validation, alert-rule generation,
-- scrape-config scheme handling and Alertmanager assembly, with theorems
-- about the specified properties.

set_option maxHeartbeats 1000000

/-- Model of a Python/YAML value as it appears in the parsed configuration.
Dictionaries are association lists in insertion order (Python dicts preserve
insertion order and have unique keys). -/
inductive PyVal where
  | vnone : PyVal
  | vbool : Bool → PyVal
  | vint : Int → PyVal
  | vstr : String → PyVal
  | vlist : List PyVal → PyVal
  | vdict : List (String × PyVal) → PyVal

/-- Python dict lookup `d[k]` / `d.get(k)`: first entry with the key. -/
def dictGet (kvs : List (String × PyVal)) (k : String) : Option PyVal :=
  match kvs.find? (fun kv => kv.1 == k) with
  | some kv => some kv.2
  | none => none

/-- Python dict assignment `d[k] = v`: replace the value in place if the key
exists, otherwise append the new entry at the end (insertion order). -/
def dictSet (kvs : List (String × PyVal)) (k : String) (v : PyVal) : List (String × PyVal) :=
  if (kvs.find? (fun kv => kv.1 == k)).isSome then
    kvs.map (fun kv => if kv.1 == k then (k, v) else kv)
  else
    kvs ++ [(k, v)]

/-- Python truthiness (`bool(x)`): None, False, 0, empty string, empty list
and empty dict are falsy. -/
def truthy : PyVal → Bool
  | PyVal.vnone => false
  | PyVal.vbool b => b
  | PyVal.vint n => n != 0
  | PyVal.vstr s => !s.isEmpty
  | PyVal.vlist xs => !xs.isEmpty
  | PyVal.vdict kvs => !kvs.isEmpty

/-- Whether a value is a Python bool (`isinstance(v, bool)`). -/
def isBoolVal : PyVal → Bool
  | PyVal.vbool _ => true
  | _ => false

/-- Discriminates `Except.ok` results (validation success). -/
def exceptOk {ε α : Type} : Except ε α → Bool
  | Except.ok _ => true
  | Except.error _ => false

-- ------------------------------------------------------------------
-- Alert catalogs (the valid key sets and default maps of parse_config.py)
-- ------------------------------------------------------------------

/-- The `valid_alert_types` set of `validate_alerts_config` (bridge alerts),
kept in source listing order. -/
def valid_alert_types : List String :=
  ["uptime", "metrics_public_key_availability", "ingress_access", "voting_power",
   "bridge_requests_errors", "bridge_high_latency", "bridge_high_cache_misses",
   "bridge_rpc_errors",
   "stale_sui_sync", "stale_eth_sync", "stale_eth_finalization", "low_gas_balance"]

/-- The `valid_alert_types` set of `validate_validator_alerts_config`. -/
def valid_validator_alert_types : List String :=
  ["uptime", "reputation_rank", "voting_power",
   "tx_processing_latency_p95", "tx_processing_latency_p95_10s",
   "tx_processing_latency_p95_3s", "tx_processing_latency_p50",
   "proposal_latency", "consensus_block_commit_rate", "committed_round_rate",
   "fullnode_connectivity"]

/-- Models `get_default_alerts()`: default bridge alerts, all enabled. -/
def get_default_alerts : List (String × PyVal) :=
  [("uptime", PyVal.vbool true),
   ("metrics_public_key_availability", PyVal.vbool true),
   ("ingress_access", PyVal.vbool true),
   ("voting_power", PyVal.vbool true),
   ("bridge_requests_errors", PyVal.vbool true),
   ("bridge_high_latency", PyVal.vbool true),
   ("bridge_high_cache_misses", PyVal.vbool true),
   ("bridge_rpc_errors", PyVal.vbool true),
   ("stale_sui_sync", PyVal.vbool true),
   ("stale_eth_sync", PyVal.vbool true),
   ("stale_eth_finalization", PyVal.vbool true),
   ("low_gas_balance", PyVal.vbool true)]

/-- Models `get_default_validator_alerts()`: default validator alerts, all enabled. -/
def get_default_validator_alerts : List (String × PyVal) :=
  [("uptime", PyVal.vbool true),
   ("reputation_rank", PyVal.vbool true),
   ("voting_power", PyVal.vbool true),
   ("tx_processing_latency_p95", PyVal.vbool true),
   ("tx_processing_latency_p95_10s", PyVal.vbool true),
   ("tx_processing_latency_p95_3s", PyVal.vbool true),
   ("tx_processing_latency_p50", PyVal.vbool true),
   ("proposal_latency", PyVal.vbool true),
   ("consensus_block_commit_rate", PyVal.vbool true),
   ("committed_round_rate", PyVal.vbool true),
   ("fullnode_connectivity", PyVal.vbool true)]

-- ------------------------------------------------------------------
-- Validation (validate_bridges_config / validate_validators_config)
-- ------------------------------------------------------------------

/-- The per-field loop over `required_fields`: a missing field or a falsy
("empty") field value raises `ValueError`. -/
def checkRequiredFields (kindName : String) (i : Nat) (kvs : List (String × PyVal)) :
    List String → Except String Unit
  | [] => Except.ok ()
  | fld :: rest =>
    match dictGet kvs fld with
    | none => Except.error (kindName ++ " " ++ toString i ++ " missing required field: " ++ fld)
    | some v =>
      if truthy v then checkRequiredFields kindName i kvs rest
      else Except.error (kindName ++ " " ++ toString i ++ " field " ++ fld ++ " cannot be empty")

/-- The loop of `validate_alerts_config` / `validate_validator_alerts_config`
over `alerts.items()`: a key outside the valid set, or a non-boolean value,
raises `ValueError`. -/
def checkAlertEntries (kindName : String) (valid : List String) (i : Nat) :
    List (String × PyVal) → Except String Unit
  | [] => Except.ok ()
  | (k, v) :: rest =>
    if valid.contains k then
      match v with
      | PyVal.vbool _ => checkAlertEntries kindName valid i rest
      | _ => Except.error (kindName ++ " " ++ toString i ++ " alert " ++ k ++ " must be a boolean")
    else
      Except.error (kindName ++ " " ++ toString i ++ " has invalid alert type: " ++ k)

/-- Models `validate_alerts_config(alerts, bridge_index)`. -/
def validate_alerts_config (alerts : PyVal) (bridge_index : Nat) : Except String Unit :=
  match alerts with
  | PyVal.vdict entries => checkAlertEntries "Bridge" valid_alert_types bridge_index entries
  | _ => Except.error ("Bridge " ++ toString bridge_index ++ " alerts must be a dictionary")

/-- Models `validate_validator_alerts_config(alerts, validator_index)`. -/
def validate_validator_alerts_config (alerts : PyVal) (validator_index : Nat) : Except String Unit :=
  match alerts with
  | PyVal.vdict entries =>
      checkAlertEntries "Validator" valid_validator_alert_types validator_index entries
  | _ => Except.error ("Validator " ++ toString validator_index ++ " alerts must be a dictionary")

/-- The body of the `for i, bridge in enumerate(bridges)` loop of
`validate_bridges_config`: required-field checks, then either validation of a
present `alerts` entry (left unchanged) or in-place assignment of the default
alert map.  Returns the normalized record. -/
def validate_bridge (i : Nat) (bridge : PyVal) : Except String PyVal :=
  match bridge with
  | PyVal.vdict kvs =>
    match checkRequiredFields "Bridge" i kvs ["alias", "target", "public_address"] with
    | Except.error e => Except.error e
    | Except.ok _ =>
      match dictGet kvs "alerts" with
      | some alerts =>
        match validate_alerts_config alerts i with
        | Except.error e => Except.error e
        | Except.ok _ => Except.ok (PyVal.vdict kvs)
      | none => Except.ok (PyVal.vdict (dictSet kvs "alerts" (PyVal.vdict get_default_alerts)))
  | _ => Except.error ("Bridge " ++ toString i ++ " must be a dictionary")

/-- The loop body of `validate_validators_config` (required fields are only
`alias` and `target`). -/
def validate_validator (i : Nat) (validator : PyVal) : Except String PyVal :=
  match validator with
  | PyVal.vdict kvs =>
    match checkRequiredFields "Validator" i kvs ["alias", "target"] with
    | Except.error e => Except.error e
    | Except.ok _ =>
      match dictGet kvs "alerts" with
      | some alerts =>
        match validate_validator_alerts_config alerts i with
        | Except.error e => Except.error e
        | Except.ok _ => Except.ok (PyVal.vdict kvs)
      | none =>
        Except.ok (PyVal.vdict (dictSet kvs "alerts" (PyVal.vdict get_default_validator_alerts)))
  | _ => Except.error ("Validator " ++ toString i ++ " must be a dictionary")

/-- The indexed loop of `validate_bridges_config`, returning the list of
normalized records (the Python code normalizes the same records in place). -/
def validateBridgeList (i : Nat) : List PyVal → Except String (List PyVal)
  | [] => Except.ok []
  | b :: rest =>
    match validate_bridge i b with
    | Except.error e => Except.error e
    | Except.ok b2 =>
      match validateBridgeList (i + 1) rest with
      | Except.error e => Except.error e
      | Except.ok rest2 => Except.ok (b2 :: rest2)

/-- The indexed loop of `validate_validators_config`. -/
def validateValidatorList (i : Nat) : List PyVal → Except String (List PyVal)
  | [] => Except.ok []
  | v :: rest =>
    match validate_validator i v with
    | Except.error e => Except.error e
    | Except.ok v2 =>
      match validateValidatorList (i + 1) rest with
      | Except.error e => Except.error e
      | Except.ok rest2 => Except.ok (v2 :: rest2)

/-- Models `validate_bridges_config(bridges)`: the input must itself be a list. -/
def validate_bridges_config (bridges : PyVal) : Except String (List PyVal) :=
  match bridges with
  | PyVal.vlist xs => validateBridgeList 0 xs
  | _ => Except.error "bridges must be a list"

/-- Models `validate_validators_config(validators)`. -/
def validate_validators_config (validators : PyVal) : Except String (List PyVal) :=
  match validators with
  | PyVal.vlist xs => validateValidatorList 0 xs
  | _ => Except.error "validators must be a list"

-- ------------------------------------------------------------------
-- Alert rule instantiation (generate_alert_rules / generate_validator_alert_rules)
-- ------------------------------------------------------------------

/-- An instantiated alerting rule.  `forDur` models the `"for"` key of the
emitted YAML mapping; `labels` and `annotations` keep the insertion order of
the source dict literals. -/
structure Rule where
  alert : String
  expr : String
  forDur : String
  labels : List (String × String)
  annotations : List (String × String)
deriving DecidableEq

/-- A named rule group of the emitted rule file. -/
structure RuleGroup where
  name : String
  rules : List Rule
deriving DecidableEq

/-- Python `alias.replace(" ", "_")` (single-character pattern). -/
def replaceSpaces (s : String) : String :=
  String.mk (s.data.map (fun c => if c == ' ' then '_' else c))

/-- Models `alerts.get(key, False)` followed by Python truthiness (the guard of each
`if alerts.get(...)` branch). -/
def alertEnabled (alerts : List (String × PyVal)) (k : String) : Bool :=
  truthy ((dictGet alerts k).getD (PyVal.vbool false))

-- Bridge rule templates, one definition per dict literal of
-- generate_alert_rules.  Label values such as "{{ $labels.instance }}" are
-- plain strings in the source and keep their double braces; annotation
-- strings are Python f-strings, where a doubled brace renders as a single
-- brace in the output.

def bridgeUptimeRule (aliasName : String) (i : Nat) : Rule :=
  { alert := "SuiBridge_Uptime_" ++ replaceSpaces aliasName
    expr := "increase(uptime\x7bservice=\"sui_bridge\", alias=\"" ++ aliasName ++ "\"\x7d[10m]) == 0"
    forDur := "1m"
    labels := [("severity", "critical"), ("service", "sui_bridge"),
               ("instance", "\x7b\x7b $labels.instance \x7d\x7d"),
               ("alias", "\"" ++ aliasName ++ "\""), ("alert_type", "uptime"),
               ("bridge_index", toString i), ("bridge_alias", aliasName)]
    annotations := [("summary", "Critical uptime on \x7b $labels.instance \x7d (" ++ aliasName ++ ")"),
                    ("description", "The uptime for SUI Bridge Node instance \x7b $labels.instance \x7d (" ++ aliasName ++ ") has not increased in the last 10 minutes, suggesting a restart or failure."),
                    ("__dashboardUid__", "d3sdagobbprlcrf8dh3g"), ("__panelId__", "2")] }

def bridgeMetricsPublicKeyRule (aliasName : String) (i : Nat) : Rule :=
  { alert := "SuiBridge_MetricsPublicKeyAvailability_" ++ replaceSpaces aliasName
    expr := "probe_success\x7bservice=\"sui_bridge_health_check\", alias=\"" ++ aliasName ++ "\"\x7d == 0"
    forDur := "2m"
    labels := [("severity", "critical"), ("service", "sui_bridge"),
               ("instance", "\x7b\x7b $labels.instance \x7d\x7d"),
               ("alias", "\"" ++ aliasName ++ "\""),
               ("alert_type", "metrics_public_key_availability"),
               ("bridge_index", toString i), ("bridge_alias", aliasName)]
    annotations := [("summary", "Metrics Public Key Unavailable (Instance: \x7b $labels.instance \x7d, Environment: " ++ aliasName ++ ")"),
                    ("description", "The metrics public key endpoint for SUI Bridge Node instance \x7b $labels.instance \x7d (" ++ aliasName ++ ") is not accessible."),
                    ("__dashboardUid__", "d3sdagobbprlcrf8dh3g"), ("__panelId__", "2")] }

def bridgeIngressAccessRule (aliasName : String) (i : Nat) : Rule :=
  { alert := "SuiBridge_IngressAccess_" ++ replaceSpaces aliasName
    expr := "probe_success\x7bservice=\"sui_bridge_ingress_check\", alias=\"" ++ aliasName ++ "\"\x7d == 0"
    forDur := "2m"
    labels := [("severity", "critical"), ("service", "sui_bridge"),
               ("instance", "\x7b\x7b $labels.instance \x7d\x7d"),
               ("alias", "\"" ++ aliasName ++ "\""), ("alert_type", "ingress_access"),
               ("bridge_index", toString i), ("bridge_alias", aliasName)]
    annotations := [("summary", "Bridge Ingress Unavailable (Instance: \x7b $labels.instance \x7d, Environment: " ++ aliasName ++ ")"),
                    ("description", "The public ingress endpoint for SUI Bridge Node instance \x7b $labels.instance \x7d (" ++ aliasName ++ ") is not accessible."),
                    ("__dashboardUid__", "d3sdagobbprlcrf8dh3g"), ("__panelId__", "2")] }

/-- The bridge `voting_power` template.  `authority="${SUI_VALIDATOR}"` is a
doubled-brace escape in the source f-string, so the emitted expression carries
the literal shell placeholder `${SUI_VALIDATOR}` — the generator never
receives the configured `config.sui.validator` value. -/
def bridgeVotingPowerRule (aliasName : String) (i : Nat) : Rule :=
  { alert := "SuiBridge_VotingPower_" ++ replaceSpaces aliasName
    expr := "current_bridge_voting_rights\x7bservice=\"sui_bridge\", authority=\"$\x7bSUI_VALIDATOR\x7d\", alias=\"" ++ aliasName ++ "\"\x7d == 0"
    forDur := "5m"
    labels := [("severity", "critical"), ("service", "sui_bridge"),
               ("instance", "\x7b\x7b $labels.instance \x7d\x7d"),
               ("alias", "\"" ++ aliasName ++ "\""), ("alert_type", "voting_power"),
               ("bridge_index", toString i), ("bridge_alias", aliasName)]
    annotations := [("summary", "Zero Bridge Voting Rights (Instance: \x7b $labels.instance \x7d, Environment: " ++ aliasName ++ ")"),
                    ("description", "The SUI Bridge Node instance \x7b $labels.instance \x7d (" ++ aliasName ++ ") has zero voting rights, indicating a potential issue with the validator\x27s authority."),
                    ("__dashboardUid__", "d3sdagobbprlcrf8dh3g"), ("__panelId__", "288")] }

def bridgeRequestErrorsRule (aliasName : String) (i : Nat) : Rule :=
  { alert := "SuiBridge_BridgeRequestErrors_" ++ replaceSpaces aliasName
    expr := "increase(bridge_err_requests\x7bservice=\"sui_bridge\", type=\"handle_sui_tx_digest\", alias=\"" ++ aliasName ++ "\"\x7d[5m]) > 0"
    forDur := "5m"
    labels := [("severity", "critical"), ("service", "sui_bridge"),
               ("instance", "\x7b\x7b $labels.instance \x7d\x7d"),
               ("alias", "\"" ++ aliasName ++ "\""), ("alert_type", "bridge_requests_errors"),
               ("bridge_index", toString i), ("bridge_alias", aliasName)]
    annotations := [("summary", "Bridge Request Errors Detected (Instance: \x7b $labels.instance \x7d, Environment: " ++ aliasName ++ ")"),
                    ("description", "The SUI Bridge Node instance \x7b $labels.instance \x7d (" ++ aliasName ++ ") detected errors while handling SUI transaction digests in the last 5 minutes."),
                    ("__dashboardUid__", "d3sdagobbprlcrf8dh3g"), ("__panelId__", "294")] }

def bridgeHighLatencyRule (aliasName : String) (i : Nat) : Rule :=
  { alert := "SuiBridge_HighETHRPCLatency_" ++ replaceSpaces aliasName
    expr := "bridge_eth_rpc_queries_latency\x7bservice=\"sui_bridge\", alias=\"" ++ aliasName ++ "\"\x7d > 5000"
    forDur := "5m"
    labels := [("severity", "critical"), ("service", "sui_bridge"),
               ("instance", "\x7b\x7b $labels.instance \x7d\x7d"),
               ("alias", "\"" ++ aliasName ++ "\""), ("alert_type", "bridge_high_latency"),
               ("bridge_index", toString i), ("bridge_alias", aliasName)]
    annotations := [("summary", "High ETH RPC Latency (Instance: \x7b $labels.instance \x7d, Environment: " ++ aliasName ++ ")"),
                    ("description", "The ETH RPC queries latency for SUI Bridge Node instance \x7b $labels.instance \x7d (" ++ aliasName ++ ") is above 5 seconds."),
                    ("__dashboardUid__", "d3sdagobbprlcrf8dh3g"), ("__panelId__", "294")] }

def bridgeHighCacheMissesRule (aliasName : String) (i : Nat) : Rule :=
  { alert := "SuiBridge_HighCacheMisses_" ++ replaceSpaces aliasName
    expr := "(rate(bridge_signer_with_cache_miss\x7bservice=\"sui_bridge\", alias=\"" ++ aliasName ++ "\"\x7d[5m]) / (rate(bridge_signer_with_cache_hit\x7bservice=\"sui_bridge\", alias=\"" ++ aliasName ++ "\"\x7d[5m]) + rate(bridge_signer_with_cache_miss\x7bservice=\"sui_bridge\", alias=\"" ++ aliasName ++ "\"\x7d[5m]))) > 0.5"
    forDur := "5m"
    labels := [("severity", "critical"), ("service", "sui_bridge"),
               ("instance", "\x7b\x7b $labels.instance \x7d\x7d"),
               ("alias", "\"" ++ aliasName ++ "\""), ("alert_type", "bridge_high_cache_misses"),
               ("bridge_index", toString i), ("bridge_alias", aliasName)]
    annotations := [("summary", "High Cache Miss Rate (Instance: \x7b $labels.instance \x7d, Environment: " ++ aliasName ++ ")"),
                    ("description", "The cache miss rate for SUI Bridge Node instance \x7b $labels.instance \x7d (" ++ aliasName ++ ") is above 50%."),
                    ("__dashboardUid__", "d3sdagobbprlcrf8dh3g"), ("__panelId__", "305")] }

def bridgeRpcErrorsRule (aliasName : String) (i : Nat) : Rule :=
  { alert := "SuiBridge_SUIRPCErrors_" ++ replaceSpaces aliasName
    expr := "increase(bridge_sui_rpc_errors\x7bservice=\"sui_bridge\", alias=\"" ++ aliasName ++ "\"\x7d[5m]) > 0"
    forDur := "5m"
    labels := [("severity", "critical"), ("service", "sui_bridge"),
               ("instance", "\x7b\x7b $labels.instance \x7d\x7d"),
               ("alias", "\"" ++ aliasName ++ "\""), ("alert_type", "bridge_rpc_errors"),
               ("bridge_index", toString i), ("bridge_alias", aliasName)]
    annotations := [("summary", "SUI RPC Errors Detected (Instance: \x7b $labels.instance \x7d, Environment: " ++ aliasName ++ ")"),
                    ("description", "SUI RPC errors detected for SUI Bridge Node instance \x7b $labels.instance \x7d (" ++ aliasName ++ ") in the last 5 minutes."),
                    ("__dashboardUid__", "d3sdagobbprlcrf8dh3g"), ("__panelId__", "322")] }

def bridgeStaleSuiSyncRule (aliasName : String) (i : Nat) : Rule :=
  { alert := "SuiBridge_StaleSUISync_" ++ replaceSpaces aliasName
    expr := "increase(bridge_last_synced_sui_checkpoints\x7bservice=\"sui_bridge\", module_name=\"bridge\", alias=\"" ++ aliasName ++ "\"\x7d[30m]) == 0"
    forDur := "1m"
    labels := [("severity", "critical"), ("service", "sui_bridge"),
               ("instance", "\x7b\x7b $labels.instance \x7d\x7d"),
               ("alias", "\"" ++ aliasName ++ "\""), ("alert_type", "stale_sui_sync"),
               ("bridge_index", toString i), ("bridge_alias", aliasName)]
    annotations := [("summary", "Bridge Last Synced Checkpoints Not Increasing (Instance: \x7b $labels.instance \x7d, Environment: " ++ aliasName ++ ")"),
                    ("description", "Bridge Last Synced Checkpoints on \x7b $labels.instance \x7d (" ++ aliasName ++ ") are not increasing for the last 30 minutes."),
                    ("__dashboardUid__", "d3sdagobbprlcrf8dh3g"), ("__panelId__", "331")] }

def bridgeStaleEthSyncRule (aliasName : String) (i : Nat) : Rule :=
  { alert := "SuiBridge_StaleETHSync_" ++ replaceSpaces aliasName
    expr := "increase(bridge_last_synced_eth_blocks\x7bservice=\"sui_bridge\", alias=\"" ++ aliasName ++ "\"\x7d[30m]) == 0"
    forDur := "1m"
    labels := [("severity", "critical"), ("service", "sui_bridge"),
               ("instance", "\x7b\x7b $labels.instance \x7d\x7d"),
               ("alias", "\"" ++ aliasName ++ "\""), ("alert_type", "stale_eth_sync"),
               ("bridge_index", toString i), ("bridge_alias", aliasName)]
    annotations := [("summary", "Bridge Last Synced ETH Blocks Not Increasing (Instance: \x7b $labels.instance \x7d, Environment: " ++ aliasName ++ ")"),
                    ("description", "Bridge Last Synced ETH Blocks on \x7b $labels.instance \x7d (" ++ aliasName ++ ") are not increasing for the last 30 minutes."),
                    ("__dashboardUid__", "d3sdagobbprlcrf8dh3g"), ("__panelId__", "324")] }

def bridgeStaleEthFinalizationRule (aliasName : String) (i : Nat) : Rule :=
  { alert := "SuiBridge_StaleETHFinalization_" ++ replaceSpaces aliasName
    expr := "increase(bridge_last_finalized_eth_block\x7bservice=\"sui_bridge\", alias=\"" ++ aliasName ++ "\"\x7d[10m]) == 0"
    forDur := "1m"
    labels := [("severity", "critical"), ("service", "sui_bridge"),
               ("instance", "\x7b\x7b $labels.instance \x7d\x7d"),
               ("alias", "\"" ++ aliasName ++ "\""), ("alert_type", "stale_eth_finalization"),
               ("bridge_index", toString i), ("bridge_alias", aliasName)]
    annotations := [("summary", "Bridge Finalized ETH Block Not Increasing (Instance: \x7b $labels.instance \x7d, Environment: " ++ aliasName ++ ")"),
                    ("description", "Bridge Finalized ETH Block on \x7b $labels.instance \x7d (" ++ aliasName ++ ") is not increasing for the last 10 minutes."),
                    ("__dashboardUid__", "d3sdagobbprlcrf8dh3g"), ("__panelId__", "324")] }

def bridgeLowGasBalanceRule (aliasName : String) (i : Nat) : Rule :=
  { alert := "SuiBridge_LowGasBalance_" ++ replaceSpaces aliasName
    expr := "bridge_gas_coin_balance\x7bservice=\"sui_bridge\", alias=\"" ++ aliasName ++ "\"\x7d < 10000000000"
    forDur := "1m"
    labels := [("severity", "critical"), ("service", "sui_bridge"),
               ("instance", "\x7b\x7b $labels.instance \x7d\x7d"),
               ("alias", "\"" ++ aliasName ++ "\""), ("alert_type", "low_gas_balance"),
               ("bridge_index", toString i), ("bridge_alias", aliasName)]
    annotations := [("summary", "Bridge Client Balance Running Low (Instance: \x7b $labels.instance \x7d, Environment: " ++ aliasName ++ ")"),
                    ("description", "Bridge Client Balance on \x7b $labels.instance \x7d (" ++ aliasName ++ ") is running out of tokens (below 10 SUI)."),
                    ("__dashboardUid__", "d3sdagobbprlcrf8dh3g"), ("__panelId__", "316")] }

-- Validator rule templates, one definition per dict literal of
-- generate_validator_alert_rules.  `sui_validator` is the top-level
-- `config.sui.validator` identity threaded into the two templates that
-- reference the authority.

def validatorUptimeRule (aliasName : String) (i : Nat) : Rule :=
  { alert := "SuiValidator_Uptime_" ++ replaceSpaces aliasName
    expr := "rate(uptime\x7balias=\"" ++ aliasName ++ "\"\x7d[5m]) == 0"
    forDur := "2m"
    labels := [("severity", "critical"), ("service", "sui_validator"),
               ("instance", "\x7b\x7b $labels.instance \x7d\x7d"),
               ("alias", "\"" ++ aliasName ++ "\""), ("alert_type", "uptime"),
               ("validator_index", toString i), ("validator_alias", aliasName)]
    annotations := [("summary", "Validator Uptime Issue (Instance: \x7b $labels.instance \x7d, Environment: " ++ aliasName ++ ")"),
                    ("description", "The uptime for SUI Validator instance \x7b $labels.instance \x7d (" ++ aliasName ++ ") is not increasing, suggesting a potential restart or failure."),
                    ("__dashboardUid__", "d3sdas8bbprlibnio2n0"), ("__panelId__", "347")] }

/-- The validator `reputation_rank` template (severity `warning`): the
configured `sui_validator` value is substituted into `authority="..."`. -/
def validatorReputationRankRule (aliasName : String) (i : Nat) (sui_validator : String) : Rule :=
  { alert := "SuiValidator_ReputationRank_" ++ replaceSpaces aliasName
    expr := "(scalar(consensus_reputation_scores\x7balias=\"" ++ aliasName ++ "\", authority=\"" ++ sui_validator ++ "\"\x7d) <= bool max(bottomk(scalar(consensus_handler_num_low_scoring_authorities\x7balias=\"" ++ aliasName ++ "\"\x7d), consensus_reputation_scores\x7balias=\"" ++ aliasName ++ "\"\x7d))) == 1"
    forDur := "30m"
    labels := [("severity", "warning"), ("service", "sui_validator"),
               ("instance", "\x7b\x7b $labels.instance \x7d\x7d"),
               ("alias", "\"" ++ aliasName ++ "\""), ("alert_type", "reputation_rank"),
               ("validator_index", toString i), ("validator_alias", aliasName)]
    annotations := [("summary", "Validator Low Reputation Rank (Instance: \x7b $labels.instance \x7d, Environment: " ++ aliasName ++ ")"),
                    ("description", "The SUI Validator instance \x7b $labels.instance \x7d (" ++ aliasName ++ ") is in the bottom N low-scoring validators based on consensus reputation scores."),
                    ("__dashboardUid__", "d3sdas8bbprlibnio2n0"), ("__panelId__", "366")] }

def validatorVotingPowerRule (aliasName : String) (i : Nat) : Rule :=
  { alert := "SuiValidator_VotingPower_" ++ replaceSpaces aliasName
    expr := "current_voting_right\x7balias=\"" ++ aliasName ++ "\"\x7d == 0"
    forDur := "5m"
    labels := [("severity", "critical"), ("service", "sui_validator"),
               ("instance", "\x7b\x7b $labels.instance \x7d\x7d"),
               ("alias", "\"" ++ aliasName ++ "\""), ("alert_type", "voting_power"),
               ("validator_index", toString i), ("validator_alias", aliasName)]
    annotations := [("summary", "Zero Validator Voting Power (Instance: \x7b $labels.instance \x7d, Environment: " ++ aliasName ++ ")"),
                    ("description", "The SUI Validator instance \x7b $labels.instance \x7d (" ++ aliasName ++ ") has zero voting power, indicating a critical issue with the validator\x27s authority."),
                    ("__dashboardUid__", "d3sdas8bbprlibnio2n0"), ("__panelId__", "268")] }

def validatorTxLatencyP95Rule (aliasName : String) (i : Nat) : Rule :=
  { alert := "SuiValidator_TxProcessingLatencyP95_" ++ replaceSpaces aliasName
    expr := "histogram_quantile(0.95, rate(validator_service_handle_certificate_consensus_latency_bucket\x7balias=\"" ++ aliasName ++ "\"\x7d[5m])) > 15000"
    forDur := "5m"
    labels := [("severity", "critical"), ("service", "sui_validator"),
               ("instance", "\x7b\x7b $labels.instance \x7d\x7d"),
               ("alias", "\"" ++ aliasName ++ "\""), ("alert_type", "tx_processing_latency_p95"),
               ("validator_index", toString i), ("validator_alias", aliasName)]
    annotations := [("summary", "High Transaction Processing Latency P95 (Instance: \x7b $labels.instance \x7d, Environment: " ++ aliasName ++ ")"),
                    ("description", "The 95th percentile transaction processing latency for SUI Validator instance \x7b $labels.instance \x7d (" ++ aliasName ++ ") is above 15 seconds."),
                    ("__dashboardUid__", "d3sdas8bbprlibnio2n0"), ("__panelId__", "295")] }

def validatorTxLatencyP95TenSecRule (aliasName : String) (i : Nat) : Rule :=
  { alert := "SuiValidator_TxProcessingLatencyP95_10s_" ++ replaceSpaces aliasName
    expr := "histogram_quantile(0.95, rate(validator_service_handle_certificate_consensus_latency_bucket\x7balias=\"" ++ aliasName ++ "\"\x7d[5m])) > 10000"
    forDur := "5m"
    labels := [("severity", "warning"), ("service", "sui_validator"),
               ("instance", "\x7b\x7b $labels.instance \x7d\x7d"),
               ("alias", "\"" ++ aliasName ++ "\""), ("alert_type", "tx_processing_latency_p95_10s"),
               ("validator_index", toString i), ("validator_alias", aliasName)]
    annotations := [("summary", "Elevated Transaction Processing Latency P95 (Instance: \x7b $labels.instance \x7d, Environment: " ++ aliasName ++ ")"),
                    ("description", "The 95th percentile transaction processing latency for SUI Validator instance \x7b $labels.instance \x7d (" ++ aliasName ++ ") is above 10 seconds."),
                    ("__dashboardUid__", "d3sdas8bbprlibnio2n0"), ("__panelId__", "295")] }

def validatorTxLatencyP95ThreeSecRule (aliasName : String) (i : Nat) : Rule :=
  { alert := "SuiValidator_TxProcessingLatencyP95_3s_" ++ replaceSpaces aliasName
    expr := "histogram_quantile(0.95, rate(validator_service_handle_certificate_consensus_latency_bucket\x7balias=\"" ++ aliasName ++ "\"\x7d[5m])) > 3000"
    forDur := "5m"
    labels := [("severity", "warning"), ("service", "sui_validator"),
               ("instance", "\x7b\x7b $labels.instance \x7d\x7d"),
               ("alias", "\"" ++ aliasName ++ "\""), ("alert_type", "tx_processing_latency_p95_3s"),
               ("validator_index", toString i), ("validator_alias", aliasName)]
    annotations := [("summary", "Moderate Transaction Processing Latency P95 (Instance: \x7b $labels.instance \x7d, Environment: " ++ aliasName ++ ")"),
                    ("description", "The 95th percentile transaction processing latency for SUI Validator instance \x7b $labels.instance \x7d (" ++ aliasName ++ ") is above 3 seconds."),
                    ("__dashboardUid__", "d3sdas8bbprlibnio2n0"), ("__panelId__", "295")] }

def validatorTxLatencyP50Rule (aliasName : String) (i : Nat) : Rule :=
  { alert := "SuiValidator_TxProcessingLatencyP50_" ++ replaceSpaces aliasName
    expr := "histogram_quantile(0.50, rate(validator_service_handle_certificate_consensus_latency_bucket\x7balias=\"" ++ aliasName ++ "\"\x7d[5m])) > 5000"
    forDur := "5m"
    labels := [("severity", "critical"), ("service", "sui_validator"),
               ("instance", "\x7b\x7b $labels.instance \x7d\x7d"),
               ("alias", "\"" ++ aliasName ++ "\""), ("alert_type", "tx_processing_latency_p50"),
               ("validator_index", toString i), ("validator_alias", aliasName)]
    annotations := [("summary", "High Transaction Processing Latency P50 (Instance: \x7b $labels.instance \x7d, Environment: " ++ aliasName ++ ")"),
                    ("description", "The 50th percentile transaction processing latency for SUI Validator instance \x7b $labels.instance \x7d (" ++ aliasName ++ ") is above 5 seconds."),
                    ("__dashboardUid__", "d3sdas8bbprlibnio2n0"), ("__panelId__", "295")] }

def validatorProposalLatencyRule (aliasName : String) (i : Nat) : Rule :=
  { alert := "SuiValidator_ProposalLatency_" ++ replaceSpaces aliasName
    expr := "rate(consensus_quorum_receive_latency_sum\x7balias=\"" ++ aliasName ++ "\"\x7d[5m]) / rate(consensus_quorum_receive_latency_count\x7balias=\"" ++ aliasName ++ "\"\x7d[5m]) > 2"
    forDur := "5m"
    labels := [("severity", "critical"), ("service", "sui_validator"),
               ("instance", "\x7b\x7b $labels.instance \x7d\x7d"),
               ("alias", "\"" ++ aliasName ++ "\""), ("alert_type", "proposal_latency"),
               ("validator_index", toString i), ("validator_alias", aliasName)]
    annotations := [("summary", "High Consensus Proposal Latency (Instance: \x7b $labels.instance \x7d, Environment: " ++ aliasName ++ ")"),
                    ("description", "The consensus proposal latency for SUI Validator instance \x7b $labels.instance \x7d (" ++ aliasName ++ ") is above 2 seconds."),
                    ("__dashboardUid__", "d3sdas8bbprlibnio2n0"), ("__panelId__", "342")] }

def validatorBlockCommitRateRule (aliasName : String) (i : Nat) : Rule :=
  { alert := "SuiValidator_ConsensusBlockCommitRate_" ++ replaceSpaces aliasName
    expr := "sum(rate(consensus_proposed_blocks\x7balias=\"" ++ aliasName ++ "\", force=\"false\"\x7d[5m])) + sum(rate(consensus_proposed_blocks\x7balias=\"" ++ aliasName ++ "\", force=\"true\"\x7d[5m])) < 3"
    forDur := "5m"
    labels := [("severity", "critical"), ("service", "sui_validator"),
               ("instance", "\x7b\x7b $labels.instance \x7d\x7d"),
               ("alias", "\"" ++ aliasName ++ "\""), ("alert_type", "consensus_block_commit_rate"),
               ("validator_index", toString i), ("validator_alias", aliasName)]
    annotations := [("summary", "Low Consensus Block Commit Rate (Instance: \x7b $labels.instance \x7d, Environment: " ++ aliasName ++ ")"),
                    ("description", "The consensus block commit rate for SUI Validator instance \x7b $labels.instance \x7d (" ++ aliasName ++ ") is below 3 blocks per second."),
                    ("__dashboardUid__", "d3sdas8bbprlibnio2n0"), ("__panelId__", "295")] }

def validatorCommittedRoundRateRule (aliasName : String) (i : Nat) : Rule :=
  { alert := "SuiValidator_CommittedRoundRate_" ++ replaceSpaces aliasName
    expr := "rate(consensus_last_committed_leader_round\x7balias=\"" ++ aliasName ++ "\"\x7d[2m]) < 3"
    forDur := "5m"
    labels := [("severity", "critical"), ("service", "sui_validator"),
               ("instance", "\x7b\x7b $labels.instance \x7d\x7d"),
               ("alias", "\"" ++ aliasName ++ "\""), ("alert_type", "committed_round_rate"),
               ("validator_index", toString i), ("validator_alias", aliasName)]
    annotations := [("summary", "Low Committed Round Rate (Instance: \x7b $labels.instance \x7d, Environment: " ++ aliasName ++ ")"),
                    ("description", "The committed round rate for SUI Validator instance \x7b $labels.instance \x7d (" ++ aliasName ++ ") is below 3 rounds per second."),
                    ("__dashboardUid__", "d3sdas8bbprlibnio2n0"), ("__panelId__", "241")] }

/-- The validator `fullnode_connectivity` template: the configured
`sui_validator` value is substituted into `name="..."`. -/
def validatorFullnodeConnectivityRule (aliasName : String) (i : Nat) (sui_validator : String) : Rule :=
  { alert := "SuiValidator_FullnodeConnectivity_" ++ replaceSpaces aliasName
    expr := "rate(total_rpc_err\x7balias=\"" ++ aliasName ++ "\", name=\"" ++ sui_validator ++ "\"\x7d[2m]) > 0"
    forDur := "5m"
    labels := [("severity", "critical"), ("service", "sui_validator"),
               ("instance", "\x7b\x7b $labels.instance \x7d\x7d"),
               ("alias", "\"" ++ aliasName ++ "\""), ("alert_type", "fullnode_connectivity"),
               ("validator_index", toString i), ("validator_alias", aliasName)]
    annotations := [("summary", "Fullnode Connectivity Issues (Instance: \x7b $labels.instance \x7d, Environment: " ++ aliasName ++ ")"),
                    ("description", "The SUI Validator instance \x7b $labels.instance \x7d (" ++ aliasName ++ ") is experiencing RPC errors indicating connectivity issues with fullnodes."),
                    ("__dashboardUid__", "d3sdas8bbprlibnio2n0"), ("__panelId__", "390")] }

-- Group assembly.  The source builds three (bridge) or two (validator)
-- Python lists by appending each enabled template in a fixed if-chain order,
-- then appends a named group to the output only when the list is non-empty.
-- Each category list is the concatenation of the conditional singletons in
-- source order.

/-- The `common_alerts` list of `generate_alert_rules`. -/
def bridge_common_alerts (aliasName : String) (i : Nat) (alerts : List (String × PyVal)) : List Rule :=
  (if alertEnabled alerts "uptime" then [bridgeUptimeRule aliasName i] else []) ++
  (if alertEnabled alerts "metrics_public_key_availability" then [bridgeMetricsPublicKeyRule aliasName i] else []) ++
  (if alertEnabled alerts "ingress_access" then [bridgeIngressAccessRule aliasName i] else []) ++
  (if alertEnabled alerts "voting_power" then [bridgeVotingPowerRule aliasName i] else [])

/-- The `client_disabled_alerts` list of `generate_alert_rules`. -/
def bridge_client_disabled_alerts (aliasName : String) (i : Nat) (alerts : List (String × PyVal)) : List Rule :=
  (if alertEnabled alerts "bridge_requests_errors" then [bridgeRequestErrorsRule aliasName i] else []) ++
  (if alertEnabled alerts "bridge_high_latency" then [bridgeHighLatencyRule aliasName i] else []) ++
  (if alertEnabled alerts "bridge_high_cache_misses" then [bridgeHighCacheMissesRule aliasName i] else []) ++
  (if alertEnabled alerts "bridge_rpc_errors" then [bridgeRpcErrorsRule aliasName i] else [])

/-- The `client_enabled_alerts` list of `generate_alert_rules`. -/
def bridge_client_enabled_alerts (aliasName : String) (i : Nat) (alerts : List (String × PyVal)) : List Rule :=
  (if alertEnabled alerts "stale_sui_sync" then [bridgeStaleSuiSyncRule aliasName i] else []) ++
  (if alertEnabled alerts "stale_eth_sync" then [bridgeStaleEthSyncRule aliasName i] else []) ++
  (if alertEnabled alerts "stale_eth_finalization" then [bridgeStaleEthFinalizationRule aliasName i] else []) ++
  (if alertEnabled alerts "low_gas_balance" then [bridgeLowGasBalanceRule aliasName i] else [])

/-- The `groups` value written to a bridge rule file (`bridge_rules["groups"]`):
categories in fixed order, empty categories omitted. -/
def generate_bridge_groups (aliasName : String) (i : Nat) (alerts : List (String × PyVal)) : List RuleGroup :=
  (if (bridge_common_alerts aliasName i alerts).isEmpty then [] else
    [RuleGroup.mk ("sui_bridge_common_alerts_" ++ replaceSpaces aliasName)
      (bridge_common_alerts aliasName i alerts)]) ++
  (if (bridge_client_disabled_alerts aliasName i alerts).isEmpty then [] else
    [RuleGroup.mk ("sui_bridge_client_disabled_alerts_" ++ replaceSpaces aliasName)
      (bridge_client_disabled_alerts aliasName i alerts)]) ++
  (if (bridge_client_enabled_alerts aliasName i alerts).isEmpty then [] else
    [RuleGroup.mk ("sui_bridge_client_enabled_alerts_" ++ replaceSpaces aliasName)
      (bridge_client_enabled_alerts aliasName i alerts)])

/-- The `critical_alerts` list of `generate_validator_alert_rules` (the
templates that append to `critical_alerts`, in if-chain order). -/
def validator_critical_alerts (aliasName : String) (i : Nat) (sui_validator : String)
    (alerts : List (String × PyVal)) : List Rule :=
  (if alertEnabled alerts "uptime" then [validatorUptimeRule aliasName i] else []) ++
  (if alertEnabled alerts "voting_power" then [validatorVotingPowerRule aliasName i] else []) ++
  (if alertEnabled alerts "tx_processing_latency_p95" then [validatorTxLatencyP95Rule aliasName i] else []) ++
  (if alertEnabled alerts "tx_processing_latency_p50" then [validatorTxLatencyP50Rule aliasName i] else []) ++
  (if alertEnabled alerts "proposal_latency" then [validatorProposalLatencyRule aliasName i] else []) ++
  (if alertEnabled alerts "consensus_block_commit_rate" then [validatorBlockCommitRateRule aliasName i] else []) ++
  (if alertEnabled alerts "committed_round_rate" then [validatorCommittedRoundRateRule aliasName i] else []) ++
  (if alertEnabled alerts "fullnode_connectivity" then [validatorFullnodeConnectivityRule aliasName i sui_validator] else [])

/-- The `warning_alerts` list of `generate_validator_alert_rules`. -/
def validator_warning_alerts (aliasName : String) (i : Nat) (sui_validator : String)
    (alerts : List (String × PyVal)) : List Rule :=
  (if alertEnabled alerts "reputation_rank" then [validatorReputationRankRule aliasName i sui_validator] else []) ++
  (if alertEnabled alerts "tx_processing_latency_p95_10s" then [validatorTxLatencyP95TenSecRule aliasName i] else []) ++
  (if alertEnabled alerts "tx_processing_latency_p95_3s" then [validatorTxLatencyP95ThreeSecRule aliasName i] else [])

/-- The `groups` value written to a validator rule file: the critical group,
then the warning group, empty groups omitted. -/
def generate_validator_groups (aliasName : String) (i : Nat) (sui_validator : String)
    (alerts : List (String × PyVal)) : List RuleGroup :=
  (if (validator_critical_alerts aliasName i sui_validator alerts).isEmpty then [] else
    [RuleGroup.mk ("sui_validator_critical_alerts_" ++ replaceSpaces aliasName)
      (validator_critical_alerts aliasName i sui_validator alerts)]) ++
  (if (validator_warning_alerts aliasName i sui_validator alerts).isEmpty then [] else
    [RuleGroup.mk ("sui_validator_warning_alerts_" ++ replaceSpaces aliasName)
      (validator_warning_alerts aliasName i sui_validator alerts)])

/-- All rules of a group list, groups concatenated in emitted order. -/
def allRules (gs : List RuleGroup) : List Rule :=
  (gs.map (fun g => g.rules)).flatten

/-- The `alert_type` label of an instantiated rule (every template sets it to
its catalog key). -/
def ruleAlertType (r : Rule) : String :=
  match r.labels.find? (fun p => p.1 == "alert_type") with
  | some p => p.2
  | none => ""

-- Catalog key orders, as fixed by the if-chains of the generators.

/-- Bridge catalog keys in the order rules are emitted (common, then
client-disabled, then client-enabled). -/
def bridgeCatalogOrder : List String :=
  ["uptime", "metrics_public_key_availability", "ingress_access", "voting_power",
   "bridge_requests_errors", "bridge_high_latency", "bridge_high_cache_misses",
   "bridge_rpc_errors",
   "stale_sui_sync", "stale_eth_sync", "stale_eth_finalization", "low_gas_balance"]

/-- Validator catalog keys in the order rules are emitted (the critical group
in if-chain order, then the warning group in if-chain order). -/
def validatorCatalogOrder : List String :=
  ["uptime", "voting_power", "tx_processing_latency_p95", "tx_processing_latency_p50",
   "proposal_latency", "consensus_block_commit_rate", "committed_round_rate",
   "fullnode_connectivity",
   "reputation_rank", "tx_processing_latency_p95_10s", "tx_processing_latency_p95_3s"]

/-- Whether an alert key is literally mapped to `True` in an alerts map (the
claim notion of the enabled set `S` for a validated map). -/
def alertMappedTrue (alerts : List (String × PyVal)) (k : String) : Bool :=
  match dictGet alerts k with
  | some (PyVal.vbool true) => true
  | _ => false

-- ------------------------------------------------------------------
-- Scheme stripping (generate_prometheus_config target sanitization)
-- ------------------------------------------------------------------

/-- Character-list prefix test (structural, so proofs can evaluate it). -/
def isPrefixChars : List Char → List Char → Bool
  | [], _ => true
  | _ :: _, [] => false
  | a :: as, b :: bs => a == b && isPrefixChars as bs

/-- Python `s.startswith(pre)`. -/
def startswith (s pre : String) : Bool :=
  isPrefixChars pre.data s.data

/-- Python `s[n:]` (character slicing). -/
def strDrop (s : String) (n : Nat) : String :=
  String.mk (s.data.drop n)

/-- The target sanitization of `generate_prometheus_config`: default scheme
`http` and the target unchanged; `https://` stripped (8 chars) with scheme
`https`; `http://` stripped (7 chars) with scheme `http`.  Returns the pair
`(scheme, clean_target)`. -/
def strip_scheme (target : String) : String × String :=
  if startswith target "https://" then ("https", strDrop target 8)
  else if startswith target "http://" then ("http", strDrop target 7)
  else ("http", target)

/-- Substring occurrence over character lists. -/
def containsSubChars (sub : List Char) : List Char → Bool
  | [] => isPrefixChars sub []
  | c :: cs => isPrefixChars sub (c :: cs) || containsSubChars sub cs

/-- Whether `sub` occurs as a contiguous substring of `s`. -/
def strContains (s sub : String) : Bool :=
  containsSubChars sub.data s.data

-- ------------------------------------------------------------------
-- Alertmanager configuration (generate_alertmanager_config)
-- ------------------------------------------------------------------

structure WebhookConfig where
  url : String
  send_resolved : Bool
deriving DecidableEq

structure PagerdutyConfig where
  service_key : String
  send_resolved : Bool
  description : String
  severity : String
deriving DecidableEq

structure TelegramConfig where
  api_url : String
  bot_token : String
  chat_id : Int
  send_resolved : Bool
  parse_mode : String
  message : String
deriving DecidableEq

structure DiscordConfig where
  webhook_url : String
  send_resolved : Bool
  title : String
  message : String
deriving DecidableEq

/-- A receiver of the generated Alertmanager document.  A `*_configs` key
absent from the Python dict is modeled as the empty list. -/
structure Receiver where
  name : String
  webhook_configs : List WebhookConfig
  pagerduty_configs : List PagerdutyConfig
  telegram_configs : List TelegramConfig
  discord_configs : List DiscordConfig
deriving DecidableEq

structure RouteChild where
  match_severity : String
  receiver : String
  group_wait : String
  repeat_interval : String
deriving DecidableEq

structure RootRoute where
  group_by : List String
  group_wait : String
  group_interval : String
  repeat_interval : String
  receiver : String
  routes : List RouteChild
deriving DecidableEq

structure InhibitRule where
  source_severity : String
  target_severity : String
  equal : List String
deriving DecidableEq

structure AmGlobal where
  resolve_timeout : String
  smtp_smarthost : String
  smtp_from : String
deriving DecidableEq

structure AlertmanagerConfig where
  globalCfg : AmGlobal
  route : RootRoute
  receivers : List Receiver
  inhibit_rules : List InhibitRule
deriving DecidableEq

-- Functional models of the in-place dict-key assignments on a receiver.

def setPagerdutyConfigs (r : Receiver) (l : List PagerdutyConfig) : Receiver :=
  Receiver.mk r.name r.webhook_configs l r.telegram_configs r.discord_configs

def setTelegramConfigs (r : Receiver) (l : List TelegramConfig) : Receiver :=
  Receiver.mk r.name r.webhook_configs r.pagerduty_configs l r.discord_configs

def setDiscordConfigs (r : Receiver) (l : List DiscordConfig) : Receiver :=
  Receiver.mk r.name r.webhook_configs r.pagerduty_configs r.telegram_configs l

-- Python int(str) for the telegram chat id.

/-- Python whitespace accepted around an integer literal. -/
def isPySpace (c : Char) : Bool :=
  c == ' ' || c == '\t' || c == '\n' || c == '\r' || c == '\x0b' || c == '\x0c'

/-- Strip leading and trailing whitespace. -/
def pyStripChars (l : List Char) : List Char :=
  ((l.dropWhile isPySpace).reverse.dropWhile isPySpace).reverse

/-- Accumulate decimal digits; any non-digit character fails. -/
def digitsToNatAux (acc : Nat) : List Char → Option Nat
  | [] => some acc
  | c :: cs =>
    if c.isDigit then digitsToNatAux (acc * 10 + (c.toNat - '0'.toNat)) cs
    else none

/-- A non-empty all-digit run as a natural number. -/
def digitsToNat : List Char → Option Nat
  | [] => none
  | l => digitsToNatAux 0 l

/-- Modeled from Python `int(s)` on decimal string literals: optional
surrounding whitespace, optional sign, then a non-empty digit run; anything
else raises `ValueError` (modeled as `none`).  Underscore digit separators
and non-ASCII digits are not modeled. -/
def pyToInt (s : String) : Option Int :=
  match pyStripChars s.data with
  | '+' :: ds => (digitsToNat ds).map Int.ofNat
  | '-' :: ds => (digitsToNat ds).map (fun n => -(Int.ofNat n))
  | ds => (digitsToNat ds).map Int.ofNat

-- Static text of the generated receivers.

def criticalTelegramMessage : String :=
  "<b>🚨 CRITICAL Alert</b>\n<b>Alert:</b> \x7b\x7b .GroupLabels.alertname \x7d\x7d\n<b>Severity:</b> \x7b\x7b .CommonLabels.severity \x7d\x7d\n<b>Summary:</b> \x7b\x7b .CommonAnnotations.summary \x7d\x7d\n<b>Description:</b> \x7b\x7b .CommonAnnotations.description \x7d\x7d"

def warningTelegramMessage : String :=
  "<b>⚠️ WARNING Alert</b>\n<b>Alert:</b> \x7b\x7b .GroupLabels.alertname \x7d\x7d\n<b>Severity:</b> \x7b\x7b .CommonLabels.severity \x7d\x7d\n<b>Summary:</b> \x7b\x7b .CommonAnnotations.summary \x7d\x7d\n<b>Description:</b> \x7b\x7b .CommonAnnotations.description \x7d\x7d"

def discordMessageBody : String :=
  "**Severity:** \x7b\x7b .CommonLabels.severity \x7d\x7d\n**Summary:** \x7b\x7b .CommonAnnotations.summary \x7d\x7d\n**Description:** \x7b\x7b .CommonAnnotations.description \x7d\x7d"

def pagerdutyDescriptionText : String :=
  "\x7b\x7b .GroupLabels.alertname \x7d\x7d - \x7b\x7b .CommonAnnotations.summary \x7d\x7d"

def pagerdutySeverityText : String :=
  "\x7b\x7b .CommonLabels.severity \x7d\x7d"

/-- The static `global` section. -/
def amGlobalDef : AmGlobal :=
  AmGlobal.mk "5m" "localhost:587" "alertmanager@example.com"

/-- The static routing tree: root fallback `default`, critical and warning
child routes. -/
def amRouteDef : RootRoute :=
  RootRoute.mk ["alertname", "service", "environment"] "10s" "5m" "3h" "default"
    [RouteChild.mk "critical" "critical" "5s" "1h",
     RouteChild.mk "warning" "warning" "30s" "6h"]

/-- The static inhibition rule: critical suppresses matching warning. -/
def amInhibitDef : List InhibitRule :=
  [InhibitRule.mk "critical" "warning" ["alertname", "service", "environment"]]

/-- The always-present `default` webhook receiver. -/
def defaultReceiverDef (webhook_port : String) : Receiver :=
  Receiver.mk "default" [WebhookConfig.mk ("http://localhost:" ++ webhook_port) true] [] [] []

/-- Builds the `critical` receiver: webhook always; pagerduty iff the key is
truthy; telegram iff both token and chat id are truthy, converting the chat
id with `int()` (a `ValueError` aborts generation); discord iff the webhook
URL is truthy. -/
def buildCriticalReceiver (pagerduty_key telegram_bot_token telegram_chat_id
    discord_webhook_url webhook_port : String) : Except String Receiver :=
  let r0 : Receiver :=
    Receiver.mk "critical" [WebhookConfig.mk ("http://localhost:" ++ webhook_port) true] [] [] []
  let r1 : Receiver :=
    if pagerduty_key != "" then
      setPagerdutyConfigs r0
        [PagerdutyConfig.mk pagerduty_key true pagerdutyDescriptionText pagerdutySeverityText]
    else r0
  if telegram_bot_token != "" && telegram_chat_id != "" then
    match pyToInt telegram_chat_id with
    | some n =>
      let r2 := setTelegramConfigs r1
        [TelegramConfig.mk "https://api.telegram.org" telegram_bot_token n true "HTML"
          criticalTelegramMessage]
      Except.ok (if discord_webhook_url != "" then
        setDiscordConfigs r2
          [DiscordConfig.mk discord_webhook_url true
            ("🚨 " ++ "\x7b\x7b .GroupLabels.alertname \x7d\x7d") discordMessageBody]
      else r2)
    | none =>
      Except.error ("invalid literal for int with base 10: " ++ telegram_chat_id)
  else
    Except.ok (if discord_webhook_url != "" then
      setDiscordConfigs r1
        [DiscordConfig.mk discord_webhook_url true
          ("🚨 " ++ "\x7b\x7b .GroupLabels.alertname \x7d\x7d") discordMessageBody]
    else r1)

/-- Builds the `warning` receiver: webhook always; the same conditional
telegram and discord channels, and never a pagerduty channel. -/
def buildWarningReceiver (telegram_bot_token telegram_chat_id
    discord_webhook_url webhook_port : String) : Except String Receiver :=
  let r0 : Receiver :=
    Receiver.mk "warning" [WebhookConfig.mk ("http://localhost:" ++ webhook_port) true] [] [] []
  if telegram_bot_token != "" && telegram_chat_id != "" then
    match pyToInt telegram_chat_id with
    | some n =>
      let r2 := setTelegramConfigs r0
        [TelegramConfig.mk "https://api.telegram.org" telegram_bot_token n true "HTML"
          warningTelegramMessage]
      Except.ok (if discord_webhook_url != "" then
        setDiscordConfigs r2
          [DiscordConfig.mk discord_webhook_url true
            ("⚠️ " ++ "\x7b\x7b .GroupLabels.alertname \x7d\x7d") discordMessageBody]
      else r2)
    | none =>
      Except.error ("invalid literal for int with base 10: " ++ telegram_chat_id)
  else
    Except.ok (if discord_webhook_url != "" then
      setDiscordConfigs r0
        [DiscordConfig.mk discord_webhook_url true
          ("⚠️ " ++ "\x7b\x7b .GroupLabels.alertname \x7d\x7d") discordMessageBody]
    else r0)

/-- Models `generate_alertmanager_config` on the extracted credential strings (the
source reads each with `config.get(section, {}).get(key, "")`, so an absent
credential is the empty string; `bool("") = False`).  The emitted document is
the static global/route/inhibit data plus the receivers
`[default, critical, warning]`. -/
def generate_alertmanager_config (pagerduty_key telegram_bot_token telegram_chat_id
    discord_webhook_url webhook_port : String) : Except String AlertmanagerConfig :=
  match buildCriticalReceiver pagerduty_key telegram_bot_token telegram_chat_id
      discord_webhook_url webhook_port with
  | Except.error e => Except.error e
  | Except.ok crit =>
    match buildWarningReceiver telegram_bot_token telegram_chat_id
        discord_webhook_url webhook_port with
    | Except.error e => Except.error e
    | Except.ok warn =>
      Except.ok (AlertmanagerConfig.mk amGlobalDef amRouteDef
        [defaultReceiverDef webhook_port, crit, warn] amInhibitDef)

/-- The receiver of a given name in the generated document (used to state
properties of the critical/warning receivers). -/
def findReceiver (cfg : AlertmanagerConfig) (n : String) : Receiver :=
  match cfg.receivers.find? (fun r => r.name == n) with
  | some r => r
  | none => Receiver.mk "" [] [] [] []

/-- The critical receiver of a generation result (a dummy empty receiver when
generation failed). -/
def amCritical (e : Except String AlertmanagerConfig) : Receiver :=
  match e with
  | Except.ok cfg => findReceiver cfg "critical"
  | Except.error _ => Receiver.mk "" [] [] [] []

/-- The warning receiver of a generation result. -/
def amWarning (e : Except String AlertmanagerConfig) : Receiver :=
  match e with
  | Except.ok cfg => findReceiver cfg "warning"
  | Except.error _ => Receiver.mk "" [] [] [] []

-- ------------------------------------------------------------------
-- Helper lemmas about rule generation
-- ------------------------------------------------------------------

lemma ruleType_bridgeUptime (a : String) (i : Nat) :
    ruleAlertType (bridgeUptimeRule a i) = "uptime" := rfl

lemma ruleType_bridgeMetricsPublicKey (a : String) (i : Nat) :
    ruleAlertType (bridgeMetricsPublicKeyRule a i) = "metrics_public_key_availability" := rfl

lemma ruleType_bridgeIngressAccess (a : String) (i : Nat) :
    ruleAlertType (bridgeIngressAccessRule a i) = "ingress_access" := rfl

lemma ruleType_bridgeVotingPower (a : String) (i : Nat) :
    ruleAlertType (bridgeVotingPowerRule a i) = "voting_power" := rfl

lemma ruleType_bridgeRequestErrors (a : String) (i : Nat) :
    ruleAlertType (bridgeRequestErrorsRule a i) = "bridge_requests_errors" := rfl

lemma ruleType_bridgeHighLatency (a : String) (i : Nat) :
    ruleAlertType (bridgeHighLatencyRule a i) = "bridge_high_latency" := rfl

lemma ruleType_bridgeHighCacheMisses (a : String) (i : Nat) :
    ruleAlertType (bridgeHighCacheMissesRule a i) = "bridge_high_cache_misses" := rfl

lemma ruleType_bridgeRpcErrors (a : String) (i : Nat) :
    ruleAlertType (bridgeRpcErrorsRule a i) = "bridge_rpc_errors" := rfl

lemma ruleType_bridgeStaleSuiSync (a : String) (i : Nat) :
    ruleAlertType (bridgeStaleSuiSyncRule a i) = "stale_sui_sync" := rfl

lemma ruleType_bridgeStaleEthSync (a : String) (i : Nat) :
    ruleAlertType (bridgeStaleEthSyncRule a i) = "stale_eth_sync" := rfl

lemma ruleType_bridgeStaleEthFinalization (a : String) (i : Nat) :
    ruleAlertType (bridgeStaleEthFinalizationRule a i) = "stale_eth_finalization" := rfl

lemma ruleType_bridgeLowGasBalance (a : String) (i : Nat) :
    ruleAlertType (bridgeLowGasBalanceRule a i) = "low_gas_balance" := rfl

lemma ruleType_validatorUptime (a : String) (i : Nat) :
    ruleAlertType (validatorUptimeRule a i) = "uptime" := rfl

lemma ruleType_validatorReputationRank (a : String) (i : Nat) (sv : String) :
    ruleAlertType (validatorReputationRankRule a i sv) = "reputation_rank" := rfl

lemma ruleType_validatorVotingPower (a : String) (i : Nat) :
    ruleAlertType (validatorVotingPowerRule a i) = "voting_power" := rfl

lemma ruleType_validatorTxP95 (a : String) (i : Nat) :
    ruleAlertType (validatorTxLatencyP95Rule a i) = "tx_processing_latency_p95" := rfl

lemma ruleType_validatorTxP95Ten (a : String) (i : Nat) :
    ruleAlertType (validatorTxLatencyP95TenSecRule a i) = "tx_processing_latency_p95_10s" := rfl

lemma ruleType_validatorTxP95Three (a : String) (i : Nat) :
    ruleAlertType (validatorTxLatencyP95ThreeSecRule a i) = "tx_processing_latency_p95_3s" := rfl

lemma ruleType_validatorTxP50 (a : String) (i : Nat) :
    ruleAlertType (validatorTxLatencyP50Rule a i) = "tx_processing_latency_p50" := rfl

lemma ruleType_validatorProposalLatency (a : String) (i : Nat) :
    ruleAlertType (validatorProposalLatencyRule a i) = "proposal_latency" := rfl

lemma ruleType_validatorBlockCommitRate (a : String) (i : Nat) :
    ruleAlertType (validatorBlockCommitRateRule a i) = "consensus_block_commit_rate" := rfl

lemma ruleType_validatorCommittedRoundRate (a : String) (i : Nat) :
    ruleAlertType (validatorCommittedRoundRateRule a i) = "committed_round_rate" := rfl

lemma ruleType_validatorFullnodeConnectivity (a : String) (i : Nat) (sv : String) :
    ruleAlertType (validatorFullnodeConnectivityRule a i sv) = "fullnode_connectivity" := rfl

lemma allRules_append (gs hs : List RuleGroup) :
    allRules (gs ++ hs) = allRules gs ++ allRules hs := by
  simp [allRules]

lemma allRules_groupOf (n : String) (l : List Rule) :
    allRules (if l.isEmpty then [] else [RuleGroup.mk n l]) = l := by
  cases l <;> simp [allRules]

/-- Concatenating the emitted groups of a bridge yields the three category
lists in order (empty categories are omitted as groups but contribute no
rules). -/
lemma bridge_allRules (a : String) (i : Nat) (alerts : List (String × PyVal)) :
    allRules (generate_bridge_groups a i alerts)
      = bridge_common_alerts a i alerts ++ bridge_client_disabled_alerts a i alerts
          ++ bridge_client_enabled_alerts a i alerts := by
  simp only [generate_bridge_groups, allRules_append, allRules_groupOf]

lemma validator_allRules (a : String) (i : Nat) (sv : String) (alerts : List (String × PyVal)) :
    allRules (generate_validator_groups a i sv alerts)
      = validator_critical_alerts a i sv alerts ++ validator_warning_alerts a i sv alerts := by
  simp only [generate_validator_groups, allRules_append, allRules_groupOf]

lemma mapType_bridge_common (a : String) (i : Nat) (alerts : List (String × PyVal)) :
    (bridge_common_alerts a i alerts).map ruleAlertType
      = (["uptime", "metrics_public_key_availability", "ingress_access",
          "voting_power"]).filter (fun k => alertEnabled alerts k) := by
  cases h1 : alertEnabled alerts "uptime" <;>
    cases h2 : alertEnabled alerts "metrics_public_key_availability" <;>
      cases h3 : alertEnabled alerts "ingress_access" <;>
        cases h4 : alertEnabled alerts "voting_power" <;>
          simp [bridge_common_alerts, h1, h2, h3, h4, ruleType_bridgeUptime,
            ruleType_bridgeMetricsPublicKey, ruleType_bridgeIngressAccess,
            ruleType_bridgeVotingPower]

lemma mapType_bridge_client_disabled (a : String) (i : Nat) (alerts : List (String × PyVal)) :
    (bridge_client_disabled_alerts a i alerts).map ruleAlertType
      = (["bridge_requests_errors", "bridge_high_latency", "bridge_high_cache_misses",
          "bridge_rpc_errors"]).filter (fun k => alertEnabled alerts k) := by
  cases h1 : alertEnabled alerts "bridge_requests_errors" <;>
    cases h2 : alertEnabled alerts "bridge_high_latency" <;>
      cases h3 : alertEnabled alerts "bridge_high_cache_misses" <;>
        cases h4 : alertEnabled alerts "bridge_rpc_errors" <;>
          simp [bridge_client_disabled_alerts, h1, h2, h3, h4, ruleType_bridgeRequestErrors,
            ruleType_bridgeHighLatency, ruleType_bridgeHighCacheMisses,
            ruleType_bridgeRpcErrors]

lemma mapType_bridge_client_enabled (a : String) (i : Nat) (alerts : List (String × PyVal)) :
    (bridge_client_enabled_alerts a i alerts).map ruleAlertType
      = (["stale_sui_sync", "stale_eth_sync", "stale_eth_finalization",
          "low_gas_balance"]).filter (fun k => alertEnabled alerts k) := by
  cases h1 : alertEnabled alerts "stale_sui_sync" <;>
    cases h2 : alertEnabled alerts "stale_eth_sync" <;>
      cases h3 : alertEnabled alerts "stale_eth_finalization" <;>
        cases h4 : alertEnabled alerts "low_gas_balance" <;>
          simp [bridge_client_enabled_alerts, h1, h2, h3, h4, ruleType_bridgeStaleSuiSync,
            ruleType_bridgeStaleEthSync, ruleType_bridgeStaleEthFinalization,
            ruleType_bridgeLowGasBalance]

/-- The emitted alert types of a bridge, in order: the catalog order
restricted to the enabled keys. -/
lemma bridge_types (a : String) (i : Nat) (alerts : List (String × PyVal)) :
    (allRules (generate_bridge_groups a i alerts)).map ruleAlertType
      = bridgeCatalogOrder.filter (fun k => alertEnabled alerts k) := by
  rw [bridge_allRules,
    show bridgeCatalogOrder
        = ["uptime", "metrics_public_key_availability", "ingress_access", "voting_power"]
          ++ ["bridge_requests_errors", "bridge_high_latency", "bridge_high_cache_misses",
              "bridge_rpc_errors"]
          ++ ["stale_sui_sync", "stale_eth_sync", "stale_eth_finalization",
              "low_gas_balance"] from rfl,
    List.filter_append, List.filter_append, List.map_append, List.map_append,
    mapType_bridge_common, mapType_bridge_client_disabled, mapType_bridge_client_enabled]

lemma mapType_validator_critical (a : String) (i : Nat) (sv : String)
    (alerts : List (String × PyVal)) :
    (validator_critical_alerts a i sv alerts).map ruleAlertType
      = (["uptime", "voting_power", "tx_processing_latency_p95", "tx_processing_latency_p50",
          "proposal_latency", "consensus_block_commit_rate", "committed_round_rate",
          "fullnode_connectivity"]).filter (fun k => alertEnabled alerts k) := by
  cases h1 : alertEnabled alerts "uptime" <;>
    cases h2 : alertEnabled alerts "voting_power" <;>
      cases h3 : alertEnabled alerts "tx_processing_latency_p95" <;>
        cases h4 : alertEnabled alerts "tx_processing_latency_p50" <;>
          cases h5 : alertEnabled alerts "proposal_latency" <;>
            cases h6 : alertEnabled alerts "consensus_block_commit_rate" <;>
              cases h7 : alertEnabled alerts "committed_round_rate" <;>
                cases h8 : alertEnabled alerts "fullnode_connectivity" <;>
                  simp [validator_critical_alerts, h1, h2, h3, h4, h5, h6, h7, h8,
                    ruleType_validatorUptime, ruleType_validatorVotingPower,
                    ruleType_validatorTxP95, ruleType_validatorTxP50,
                    ruleType_validatorProposalLatency, ruleType_validatorBlockCommitRate,
                    ruleType_validatorCommittedRoundRate,
                    ruleType_validatorFullnodeConnectivity]

lemma mapType_validator_warning (a : String) (i : Nat) (sv : String)
    (alerts : List (String × PyVal)) :
    (validator_warning_alerts a i sv alerts).map ruleAlertType
      = (["reputation_rank", "tx_processing_latency_p95_10s",
          "tx_processing_latency_p95_3s"]).filter (fun k => alertEnabled alerts k) := by
  cases h1 : alertEnabled alerts "reputation_rank" <;>
    cases h2 : alertEnabled alerts "tx_processing_latency_p95_10s" <;>
      cases h3 : alertEnabled alerts "tx_processing_latency_p95_3s" <;>
        simp [validator_warning_alerts, h1, h2, h3, ruleType_validatorReputationRank,
          ruleType_validatorTxP95Ten, ruleType_validatorTxP95Three]

/-- The emitted alert types of a validator, in order: the critical-group
catalog order, then the warning-group catalog order, restricted to the
enabled keys. -/
lemma validator_types (a : String) (i : Nat) (sv : String) (alerts : List (String × PyVal)) :
    (allRules (generate_validator_groups a i sv alerts)).map ruleAlertType
      = validatorCatalogOrder.filter (fun k => alertEnabled alerts k) := by
  rw [validator_allRules,
    show validatorCatalogOrder
        = ["uptime", "voting_power", "tx_processing_latency_p95", "tx_processing_latency_p50",
           "proposal_latency", "consensus_block_commit_rate", "committed_round_rate",
           "fullnode_connectivity"]
          ++ ["reputation_rank", "tx_processing_latency_p95_10s",
              "tx_processing_latency_p95_3s"] from rfl,
    List.filter_append, List.map_append, mapType_validator_critical, mapType_validator_warning]

/-- Every entry of an alerts map accepted by the validation loop has a valid
key and a boolean value. -/
lemma checkAlertEntries_mem (kindName : String) (valid : List String) (i : Nat) :
    ∀ entries : List (String × PyVal),
      checkAlertEntries kindName valid i entries = Except.ok () →
      ∀ kv ∈ entries, valid.contains kv.1 = true ∧ ∃ b, kv.2 = PyVal.vbool b := by
  intro entries
  induction entries with
  | nil => intro _ kv hkv; cases hkv
  | cons hd tl ih =>
    intro h kv hkv
    obtain ⟨k, v⟩ := hd
    by_cases hc : k ∈ valid
    · cases v with
      | vbool b =>
        rcases List.mem_cons.mp hkv with hkv | hkv
        · subst hkv
          exact ⟨by simpa using hc, b, rfl⟩
        · refine ih ?_ kv hkv
          simpa [checkAlertEntries, hc] using h
      | vnone => simp [checkAlertEntries, hc] at h
      | vint n => simp [checkAlertEntries, hc] at h
      | vstr s => simp [checkAlertEntries, hc] at h
      | vlist xs => simp [checkAlertEntries, hc] at h
      | vdict kvs => simp [checkAlertEntries, hc] at h
    · simp [checkAlertEntries, hc] at h

/-- On a boolean-valued alerts map, the generator guard
`bool(alerts.get(k, False))` agrees with literal `k ↦ True` membership. -/
lemma alertEnabled_eq_mappedTrue (alerts : List (String × PyVal))
    (h : ∀ kv ∈ alerts, ∃ b, kv.2 = PyVal.vbool b) (k : String) :
    alertEnabled alerts k = alertMappedTrue alerts k := by
  unfold alertEnabled alertMappedTrue dictGet
  cases hf : alerts.find? (fun kv => kv.1 == k) with
  | none => rfl
  | some kv =>
    obtain ⟨b, hb⟩ := h kv (List.mem_of_find?_eq_some hf)
    simp only [hb]
    cases b <;> rfl

/-- Bridge rule generation reads the alerts map only through key lookups:
two maps with the same lookups generate identical groups. -/
lemma generate_bridge_ext (a : String) (i : Nat) (al1 al2 : List (String × PyVal))
    (h : ∀ k, dictGet al2 k = dictGet al1 k) :
    generate_bridge_groups a i al2 = generate_bridge_groups a i al1 := by
  have he : ∀ k, alertEnabled al2 k = alertEnabled al1 k := by
    intro k; unfold alertEnabled; rw [h]
  simp only [generate_bridge_groups, bridge_common_alerts, bridge_client_disabled_alerts,
    bridge_client_enabled_alerts, he]

/-- Validator rule generation reads the alerts map only through key lookups. -/
lemma generate_validator_ext (a : String) (i : Nat) (sv : String)
    (al1 al2 : List (String × PyVal))
    (h : ∀ k, dictGet al2 k = dictGet al1 k) :
    generate_validator_groups a i sv al2 = generate_validator_groups a i sv al1 := by
  have he : ∀ k, alertEnabled al2 k = alertEnabled al1 k := by
    intro k; unfold alertEnabled; rw [h]
  simp only [generate_validator_groups, validator_critical_alerts, validator_warning_alerts, he]

/-- C3: for every validated entity and every subset S of its alert keys mapped
to true, rule generation instantiates exactly |S| rules across all emitted
groups, their order (concatenating the groups in the fixed category order)
is the catalog template order restricted to S, and the output depends only on
the key-lookup function of the alerts mapping, not on its entry order. -/
theorem c3_rule_count_and_order
    (balias : String) (bi : Nat) (balerts balerts2 : List (String × PyVal))
    (valias sv : String) (vi : Nat) (valerts valerts2 : List (String × PyVal))
    (hbv : checkAlertEntries "Bridge" valid_alert_types bi balerts = Except.ok ())
    (hvv : checkAlertEntries "Validator" valid_validator_alert_types vi valerts = Except.ok ())
    (hb2 : ∀ k, dictGet balerts2 k = dictGet balerts k)
    (hv2 : ∀ k, dictGet valerts2 k = dictGet valerts k) :
    ((allRules (generate_bridge_groups balias bi balerts)).map ruleAlertType
        = bridgeCatalogOrder.filter (fun k => alertMappedTrue balerts k))
    ∧ (allRules (generate_bridge_groups balias bi balerts)).length
        = (bridgeCatalogOrder.filter (fun k => alertMappedTrue balerts k)).length
    ∧ generate_bridge_groups balias bi balerts2 = generate_bridge_groups balias bi balerts
    ∧ ((allRules (generate_validator_groups valias vi sv valerts)).map ruleAlertType
        = validatorCatalogOrder.filter (fun k => alertMappedTrue valerts k))
    ∧ (allRules (generate_validator_groups valias vi sv valerts)).length
        = (validatorCatalogOrder.filter (fun k => alertMappedTrue valerts k)).length
    ∧ generate_validator_groups valias vi sv valerts2
        = generate_validator_groups valias vi sv valerts := by
  have hbbool : ∀ kv ∈ balerts, ∃ b, kv.2 = PyVal.vbool b := by
    intro kv hkv
    exact (checkAlertEntries_mem "Bridge" valid_alert_types bi balerts hbv kv hkv).2
  have hvbool : ∀ kv ∈ valerts, ∃ b, kv.2 = PyVal.vbool b := by
    intro kv hkv
    exact (checkAlertEntries_mem "Validator" valid_validator_alert_types vi valerts hvv kv hkv).2
  have hbe := alertEnabled_eq_mappedTrue balerts hbbool
  have hve := alertEnabled_eq_mappedTrue valerts hvbool
  have h1 : (allRules (generate_bridge_groups balias bi balerts)).map ruleAlertType
      = bridgeCatalogOrder.filter (fun k => alertMappedTrue balerts k) := by
    rw [bridge_types]
    simp only [hbe]
  have h4 : (allRules (generate_validator_groups valias vi sv valerts)).map ruleAlertType
      = validatorCatalogOrder.filter (fun k => alertMappedTrue valerts k) := by
    rw [validator_types]
    simp only [hve]
  refine ⟨h1, ?_, generate_bridge_ext balias bi balerts balerts2 hb2, h4, ?_,
    generate_validator_ext valias vi sv valerts valerts2 hv2⟩
  · rw [← h1]; simp
  · rw [← h4]; simp

/-- Witness for C3: a bridge map enabling `uptime` and disabling
`voting_power`, and a validator map enabling only `reputation_rank`, all
hypotheses discharged at these concrete inputs. -/
theorem c3_rule_count_and_order_witness :
    (checkAlertEntries "Bridge" valid_alert_types 0
        [("voting_power", PyVal.vbool false), ("uptime", PyVal.vbool true)] = Except.ok ())
    ∧ (checkAlertEntries "Validator" valid_validator_alert_types 0
        [("reputation_rank", PyVal.vbool true), ("uptime", PyVal.vbool true)] = Except.ok ())
    ∧ (((allRules (generate_bridge_groups "Alpha" 0
          [("voting_power", PyVal.vbool false), ("uptime", PyVal.vbool true)])).map ruleAlertType
        = bridgeCatalogOrder.filter (fun k => alertMappedTrue
            [("voting_power", PyVal.vbool false), ("uptime", PyVal.vbool true)] k))
      ∧ (allRules (generate_bridge_groups "Alpha" 0
          [("voting_power", PyVal.vbool false), ("uptime", PyVal.vbool true)])).length
        = (bridgeCatalogOrder.filter (fun k => alertMappedTrue
            [("voting_power", PyVal.vbool false), ("uptime", PyVal.vbool true)] k)).length
      ∧ generate_bridge_groups "Alpha" 0
          [("voting_power", PyVal.vbool false), ("uptime", PyVal.vbool true)]
        = generate_bridge_groups "Alpha" 0
          [("voting_power", PyVal.vbool false), ("uptime", PyVal.vbool true)]
      ∧ ((allRules (generate_validator_groups "Beta" 0 "authority_key"
          [("reputation_rank", PyVal.vbool true), ("uptime", PyVal.vbool true)])).map ruleAlertType
        = validatorCatalogOrder.filter (fun k => alertMappedTrue
            [("reputation_rank", PyVal.vbool true), ("uptime", PyVal.vbool true)] k))
      ∧ (allRules (generate_validator_groups "Beta" 0 "authority_key"
          [("reputation_rank", PyVal.vbool true), ("uptime", PyVal.vbool true)])).length
        = (validatorCatalogOrder.filter (fun k => alertMappedTrue
            [("reputation_rank", PyVal.vbool true), ("uptime", PyVal.vbool true)] k)).length
      ∧ generate_validator_groups "Beta" 0 "authority_key"
          [("reputation_rank", PyVal.vbool true), ("uptime", PyVal.vbool true)]
        = generate_validator_groups "Beta" 0 "authority_key"
          [("reputation_rank", PyVal.vbool true), ("uptime", PyVal.vbool true)]) :=
  ⟨rfl, rfl,
    c3_rule_count_and_order "Alpha" 0
      [("voting_power", PyVal.vbool false), ("uptime", PyVal.vbool true)]
      [("voting_power", PyVal.vbool false), ("uptime", PyVal.vbool true)]
      "Beta" "authority_key" 0
      [("reputation_rank", PyVal.vbool true), ("uptime", PyVal.vbool true)]
      [("reputation_rank", PyVal.vbool true), ("uptime", PyVal.vbool true)]
      rfl rfl (fun _ => rfl) (fun _ => rfl)⟩

/-- C1 counterexample: a bridge with `voting_power` enabled under configured
validator identity "myvalidator".  The single generated rule's expression
contains the literal placeholder text `${SUI_VALIDATOR}` and does not contain
the configured value (the bridge generator never receives it), refuting the
claim that the emitted expr carries the configured authority value for bridge
`voting_power` templates. -/
theorem c1_counterexample :
    ((allRules (generate_bridge_groups "Alpha" 0
        [("voting_power", PyVal.vbool true)])).map
          (fun r => strContains r.expr "$\x7bSUI_VALIDATOR\x7d") = [true])
    ∧ ((allRules (generate_bridge_groups "Alpha" 0
        [("voting_power", PyVal.vbool true)])).map
          (fun r => strContains r.expr "myvalidator") = [false]) := by
  constructor <;> rfl

/-- C1 (amended): validator templates that reference the authority
(`reputation_rank` via `authority="..."` and `fullnode_connectivity` via
`name="..."`) have the configured `config.sui.validator` value substituted
into the emitted expression; the bridge `voting_power` template instead emits
the literal environment placeholder `${SUI_VALIDATOR}` in place of the
authority, independent of the configured value. -/
theorem c1_authority_substitution
    (balias valias sv : String) (bi vi : Nat)
    (balerts valerts : List (String × PyVal))
    (hb : alertEnabled balerts "voting_power" = true)
    (hr : alertEnabled valerts "reputation_rank" = true)
    (hf : alertEnabled valerts "fullnode_connectivity" = true) :
    (∃ r ∈ allRules (generate_bridge_groups balias bi balerts),
      ruleAlertType r = "voting_power" ∧
      r.expr = "current_bridge_voting_rights\x7bservice=\"sui_bridge\", authority=\"$\x7bSUI_VALIDATOR\x7d\", alias=\""
          ++ balias ++ "\"\x7d == 0")
    ∧ (∃ r ∈ allRules (generate_validator_groups valias vi sv valerts),
        ruleAlertType r = "reputation_rank" ∧
        r.expr = "(scalar(consensus_reputation_scores\x7balias=\"" ++ valias
            ++ "\", authority=\"" ++ sv
            ++ "\"\x7d) <= bool max(bottomk(scalar(consensus_handler_num_low_scoring_authorities\x7balias=\""
            ++ valias ++ "\"\x7d), consensus_reputation_scores\x7balias=\"" ++ valias
            ++ "\"\x7d))) == 1")
    ∧ (∃ r ∈ allRules (generate_validator_groups valias vi sv valerts),
        ruleAlertType r = "fullnode_connectivity" ∧
        r.expr = "rate(total_rpc_err\x7balias=\"" ++ valias ++ "\", name=\"" ++ sv
            ++ "\"\x7d[2m]) > 0") := by
  refine ⟨⟨bridgeVotingPowerRule balias bi, ?_, rfl, rfl⟩,
    ⟨validatorReputationRankRule valias vi sv, ?_, rfl, rfl⟩,
    ⟨validatorFullnodeConnectivityRule valias vi sv, ?_, rfl, rfl⟩⟩
  · rw [bridge_allRules]
    simp [bridge_common_alerts, hb]
  · rw [validator_allRules]
    simp [validator_warning_alerts, hr]
  · rw [validator_allRules]
    simp [validator_critical_alerts, hf]

/-- Witness for C1 (amended) at concrete inputs with configured identity
"authkey". -/
theorem c1_authority_substitution_witness :
    (alertEnabled [("voting_power", PyVal.vbool true)] "voting_power" = true)
    ∧ (alertEnabled [("reputation_rank", PyVal.vbool true),
        ("fullnode_connectivity", PyVal.vbool true)] "reputation_rank" = true)
    ∧ (alertEnabled [("reputation_rank", PyVal.vbool true),
        ("fullnode_connectivity", PyVal.vbool true)] "fullnode_connectivity" = true)
    ∧ ((∃ r ∈ allRules (generate_bridge_groups "Alpha" 0 [("voting_power", PyVal.vbool true)]),
        ruleAlertType r = "voting_power" ∧
        r.expr = "current_bridge_voting_rights\x7bservice=\"sui_bridge\", authority=\"$\x7bSUI_VALIDATOR\x7d\", alias=\""
            ++ "Alpha" ++ "\"\x7d == 0")
      ∧ (∃ r ∈ allRules (generate_validator_groups "Beta" 0 "authkey"
            [("reputation_rank", PyVal.vbool true), ("fullnode_connectivity", PyVal.vbool true)]),
          ruleAlertType r = "reputation_rank" ∧
          r.expr = "(scalar(consensus_reputation_scores\x7balias=\"" ++ "Beta"
              ++ "\", authority=\"" ++ "authkey"
              ++ "\"\x7d) <= bool max(bottomk(scalar(consensus_handler_num_low_scoring_authorities\x7balias=\""
              ++ "Beta" ++ "\"\x7d), consensus_reputation_scores\x7balias=\"" ++ "Beta"
              ++ "\"\x7d))) == 1")
      ∧ (∃ r ∈ allRules (generate_validator_groups "Beta" 0 "authkey"
            [("reputation_rank", PyVal.vbool true), ("fullnode_connectivity", PyVal.vbool true)]),
          ruleAlertType r = "fullnode_connectivity" ∧
          r.expr = "rate(total_rpc_err\x7balias=\"" ++ "Beta" ++ "\", name=\"" ++ "authkey"
              ++ "\"\x7d[2m]) > 0")) :=
  ⟨rfl, rfl, rfl,
    c1_authority_substitution "Alpha" "Beta" "authkey" 0 0
      [("voting_power", PyVal.vbool true)]
      [("reputation_rank", PyVal.vbool true), ("fullnode_connectivity", PyVal.vbool true)]
      rfl rfl rfl⟩

/-- The alerts entries of the first record of a validation result (empty when
validation failed or the record/alerts have the wrong shape); used to state
concrete facts about validated output without equality on `PyVal`. -/
def firstRecordAlerts (e : Except String (List PyVal)) : List (String × PyVal) :=
  match e with
  | Except.ok (PyVal.vdict kvs :: _) =>
    match dictGet kvs "alerts" with
    | some (PyVal.vdict entries) => entries
    | _ => []
  | _ => []

/-- C2 counterexample: a bridge whose input has the non-empty partial alerts
map `{uptime: True}`.  Validation accepts it, but the validated record's
alerts map still has no `voting_power` key (it is not completed with catalog
defaults), and rule generation from the validated map emits only the
`uptime` rule — no rules for the absent keys. -/
theorem c2_counterexample :
    (exceptOk (validate_bridges_config (PyVal.vlist [PyVal.vdict
        [("alias", PyVal.vstr "Alpha"), ("target", PyVal.vstr "10.0.0.1:9100"),
         ("public_address", PyVal.vstr "https://alpha.example.com"),
         ("alerts", PyVal.vdict [("uptime", PyVal.vbool true)])]])) = true)
    ∧ ((dictGet (firstRecordAlerts (validate_bridges_config (PyVal.vlist [PyVal.vdict
        [("alias", PyVal.vstr "Alpha"), ("target", PyVal.vstr "10.0.0.1:9100"),
         ("public_address", PyVal.vstr "https://alpha.example.com"),
         ("alerts", PyVal.vdict [("uptime", PyVal.vbool true)])]]))) "uptime").isSome = true)
    ∧ ((dictGet (firstRecordAlerts (validate_bridges_config (PyVal.vlist [PyVal.vdict
        [("alias", PyVal.vstr "Alpha"), ("target", PyVal.vstr "10.0.0.1:9100"),
         ("public_address", PyVal.vstr "https://alpha.example.com"),
         ("alerts", PyVal.vdict [("uptime", PyVal.vbool true)])]]))) "voting_power").isSome
        = false)
    ∧ ((allRules (generate_bridge_groups "Alpha" 0
        (firstRecordAlerts (validate_bridges_config (PyVal.vlist [PyVal.vdict
          [("alias", PyVal.vstr "Alpha"), ("target", PyVal.vstr "10.0.0.1:9100"),
           ("public_address", PyVal.vstr "https://alpha.example.com"),
           ("alerts", PyVal.vdict [("uptime", PyVal.vbool true)])]]))))).map ruleAlertType
        = ["uptime"]) :=
  ⟨rfl, rfl, rfl, rfl⟩

/-- C2 (amended): a raw entity with a present (dictionary) alerts map is
validated as-is — the map is not completed with catalog defaults — and every
catalog key absent from that map produces no rule at generation time; only an
entity with no alerts key at all receives the default map. -/
theorem c2_partial_alerts_used_as_is
    (i j : Nat) (kvs lvs : List (String × PyVal)) (bam vam : List (String × PyVal))
    (rb rv : PyVal)
    (hbal : dictGet kvs "alerts" = some (PyVal.vdict bam))
    (hbok : validate_bridge i (PyVal.vdict kvs) = Except.ok rb)
    (hval : dictGet lvs "alerts" = some (PyVal.vdict vam))
    (hvok : validate_validator j (PyVal.vdict lvs) = Except.ok rv) :
    rb = PyVal.vdict kvs
    ∧ (∀ (a2 : String) (k : String), dictGet bam k = none →
        k ∉ (allRules (generate_bridge_groups a2 i bam)).map ruleAlertType)
    ∧ rv = PyVal.vdict lvs
    ∧ (∀ (a2 sv : String) (k : String), dictGet vam k = none →
        k ∉ (allRules (generate_validator_groups a2 j sv vam)).map ruleAlertType) := by
  refine ⟨?_, ?_, ?_, ?_⟩
  · simp only [validate_bridge, hbal] at hbok
    split at hbok
    · exact Except.noConfusion hbok
    · split at hbok
      · exact Except.noConfusion hbok
      · injection hbok with h
        exact h.symm
  · intro a2 k hk
    rw [bridge_types]
    intro hmem
    have hp := List.of_mem_filter hmem
    unfold alertEnabled at hp
    rw [hk] at hp
    simp [truthy] at hp
  · simp only [validate_validator, hval] at hvok
    split at hvok
    · exact Except.noConfusion hvok
    · split at hvok
      · exact Except.noConfusion hvok
      · injection hvok with h
        exact h.symm
  · intro a2 sv k hk
    rw [validator_types]
    intro hmem
    have hp := List.of_mem_filter hmem
    unfold alertEnabled at hp
    rw [hk] at hp
    simp [truthy] at hp

/-- Witness for C2 (amended) at a concrete bridge and validator with partial
alerts maps. -/
theorem c2_partial_alerts_used_as_is_witness :
    (dictGet [("alias", PyVal.vstr "Alpha"), ("target", PyVal.vstr "t"),
        ("public_address", PyVal.vstr "p"),
        ("alerts", PyVal.vdict [("uptime", PyVal.vbool true)])] "alerts"
      = some (PyVal.vdict [("uptime", PyVal.vbool true)]))
    ∧ (validate_bridge 0 (PyVal.vdict [("alias", PyVal.vstr "Alpha"),
        ("target", PyVal.vstr "t"), ("public_address", PyVal.vstr "p"),
        ("alerts", PyVal.vdict [("uptime", PyVal.vbool true)])])
      = Except.ok (PyVal.vdict [("alias", PyVal.vstr "Alpha"),
        ("target", PyVal.vstr "t"), ("public_address", PyVal.vstr "p"),
        ("alerts", PyVal.vdict [("uptime", PyVal.vbool true)])]))
    ∧ (PyVal.vdict [("alias", PyVal.vstr "Alpha"), ("target", PyVal.vstr "t"),
        ("public_address", PyVal.vstr "p"),
        ("alerts", PyVal.vdict [("uptime", PyVal.vbool true)])]
      = PyVal.vdict [("alias", PyVal.vstr "Alpha"), ("target", PyVal.vstr "t"),
        ("public_address", PyVal.vstr "p"),
        ("alerts", PyVal.vdict [("uptime", PyVal.vbool true)])])
    ∧ (∀ (a2 : String) (k : String),
        dictGet [("uptime", PyVal.vbool true)] k = none →
        k ∉ (allRules (generate_bridge_groups a2 0
              [("uptime", PyVal.vbool true)])).map ruleAlertType) :=
  ⟨rfl, rfl, rfl,
    (c2_partial_alerts_used_as_is 0 0
      [("alias", PyVal.vstr "Alpha"), ("target", PyVal.vstr "t"),
       ("public_address", PyVal.vstr "p"),
       ("alerts", PyVal.vdict [("uptime", PyVal.vbool true)])]
      [("alias", PyVal.vstr "Gamma"), ("target", PyVal.vstr "t2"),
       ("alerts", PyVal.vdict [("voting_power", PyVal.vbool true)])]
      [("uptime", PyVal.vbool true)] [("voting_power", PyVal.vbool true)]
      (PyVal.vdict [("alias", PyVal.vstr "Alpha"), ("target", PyVal.vstr "t"),
        ("public_address", PyVal.vstr "p"),
        ("alerts", PyVal.vdict [("uptime", PyVal.vbool true)])])
      (PyVal.vdict [("alias", PyVal.vstr "Gamma"), ("target", PyVal.vstr "t2"),
        ("alerts", PyVal.vdict [("voting_power", PyVal.vbool true)])])
      rfl rfl rfl rfl).2.1⟩

/-- Appending a fresh key at the end of a dict leaves every other lookup
unchanged. -/
lemma dictGet_append_single (kvs : List (String × PyVal)) (k a : String) (v : PyVal)
    (h : k ≠ a) : dictGet (kvs ++ [(a, v)]) k = dictGet kvs k := by
  unfold dictGet
  rw [List.find?_append]
  have hnone : List.find? (fun kv => kv.1 == k) [(a, v)] = none := by
    simp [Ne.symm h]
  rw [hnone, Option.or_none]

/-- Assigning an absent key appends it at the end (Python dict insertion). -/
lemma dictSet_absent (kvs : List (String × PyVal)) (k : String) (v : PyVal)
    (h : dictGet kvs k = none) : dictSet kvs k v = kvs ++ [(k, v)] := by
  unfold dictSet
  have hf : kvs.find? (fun kv => kv.1 == k) = none := by
    unfold dictGet at h
    cases hf : kvs.find? (fun kv => kv.1 == k) with
    | none => rfl
    | some kv => rw [hf] at h; cases h
  rw [hf]
  simp

/-- C6: a raw record that passes the required-field checks and has no alerts
key is accepted, and validation assigns it the catalog's default alert map
for its kind; that default maps every valid alert key to true. -/
theorem c6_default_alerts_on_absent
    (i j : Nat) (kvs lvs : List (String × PyVal))
    (hbr : checkRequiredFields "Bridge" i kvs ["alias", "target", "public_address"]
      = Except.ok ())
    (hbn : dictGet kvs "alerts" = none)
    (hvr : checkRequiredFields "Validator" j lvs ["alias", "target"] = Except.ok ())
    (hvn : dictGet lvs "alerts" = none) :
    validate_bridge i (PyVal.vdict kvs)
      = Except.ok (PyVal.vdict (kvs ++ [("alerts", PyVal.vdict get_default_alerts)]))
    ∧ validate_validator j (PyVal.vdict lvs)
      = Except.ok (PyVal.vdict (lvs ++ [("alerts", PyVal.vdict get_default_validator_alerts)]))
    ∧ (∀ k ∈ valid_alert_types, dictGet get_default_alerts k = some (PyVal.vbool true))
    ∧ (∀ k ∈ valid_validator_alert_types,
        dictGet get_default_validator_alerts k = some (PyVal.vbool true)) := by
  refine ⟨?_, ?_, ?_, ?_⟩
  · simp only [validate_bridge, hbr, hbn, dictSet_absent kvs "alerts" _ hbn]
  · simp only [validate_validator, hvr, hvn, dictSet_absent lvs "alerts" _ hvn]
  · intro k hk
    fin_cases hk <;> rfl
  · intro k hk
    fin_cases hk <;> rfl

/-- Witness for C6 at concrete records with all required fields and no
alerts key. -/
theorem c6_default_alerts_on_absent_witness :
    (checkRequiredFields "Bridge" 0
        [("alias", PyVal.vstr "Alpha"), ("target", PyVal.vstr "t"),
         ("public_address", PyVal.vstr "p")] ["alias", "target", "public_address"]
      = Except.ok ())
    ∧ (dictGet [("alias", PyVal.vstr "Alpha"), ("target", PyVal.vstr "t"),
        ("public_address", PyVal.vstr "p")] "alerts" = none)
    ∧ (validate_bridge 0 (PyVal.vdict [("alias", PyVal.vstr "Alpha"),
        ("target", PyVal.vstr "t"), ("public_address", PyVal.vstr "p")])
      = Except.ok (PyVal.vdict ([("alias", PyVal.vstr "Alpha"),
          ("target", PyVal.vstr "t"), ("public_address", PyVal.vstr "p")]
            ++ [("alerts", PyVal.vdict get_default_alerts)]))
      ∧ validate_validator 1 (PyVal.vdict [("alias", PyVal.vstr "Beta"),
          ("target", PyVal.vstr "t2")])
        = Except.ok (PyVal.vdict ([("alias", PyVal.vstr "Beta"),
            ("target", PyVal.vstr "t2")]
              ++ [("alerts", PyVal.vdict get_default_validator_alerts)]))
      ∧ (∀ k ∈ valid_alert_types, dictGet get_default_alerts k = some (PyVal.vbool true))
      ∧ (∀ k ∈ valid_validator_alert_types,
          dictGet get_default_validator_alerts k = some (PyVal.vbool true))) :=
  ⟨rfl, rfl,
    c6_default_alerts_on_absent 0 1
      [("alias", PyVal.vstr "Alpha"), ("target", PyVal.vstr "t"),
       ("public_address", PyVal.vstr "p")]
      [("alias", PyVal.vstr "Beta"), ("target", PyVal.vstr "t2")]
      rfl rfl rfl rfl⟩

/-- C9: for every raw record that validation accepts, the only change is the
completion of the alerts field: every lookup other than `alerts` is
unchanged, and when an alerts entry was present the whole record (including
every existing alerts entry) is returned unchanged. -/
theorem c9_validation_frame
    (i j : Nat) (kvs kvs2 lvs lvs2 : List (String × PyVal))
    (hb : validate_bridge i (PyVal.vdict kvs) = Except.ok (PyVal.vdict kvs2))
    (hv : validate_validator j (PyVal.vdict lvs) = Except.ok (PyVal.vdict lvs2)) :
    (∀ k, k ≠ "alerts" → dictGet kvs2 k = dictGet kvs k)
    ∧ (∀ a, dictGet kvs "alerts" = some a → kvs2 = kvs)
    ∧ (∀ k, k ≠ "alerts" → dictGet lvs2 k = dictGet lvs k)
    ∧ (∀ a, dictGet lvs "alerts" = some a → lvs2 = lvs) := by
  have hbfacts : (∀ k, k ≠ "alerts" → dictGet kvs2 k = dictGet kvs k)
      ∧ (∀ a, dictGet kvs "alerts" = some a → kvs2 = kvs) := by
    cases halt : dictGet kvs "alerts" with
    | some a =>
      simp only [validate_bridge, halt] at hb
      split at hb
      · exact Except.noConfusion hb
      · split at hb
        · exact Except.noConfusion hb
        · injection hb with h
          injection h with h2
          subst h2
          exact ⟨fun _ _ => rfl, fun _ _ => rfl⟩
    | none =>
      simp only [validate_bridge, halt] at hb
      split at hb
      · exact Except.noConfusion hb
      · injection hb with h
        injection h with h2
        rw [dictSet_absent kvs "alerts" _ halt] at h2
        subst h2
        exact ⟨fun k hk => dictGet_append_single kvs k "alerts" _ hk,
          fun a ha => Option.noConfusion ha⟩
  have hvfacts : (∀ k, k ≠ "alerts" → dictGet lvs2 k = dictGet lvs k)
      ∧ (∀ a, dictGet lvs "alerts" = some a → lvs2 = lvs) := by
    cases halt : dictGet lvs "alerts" with
    | some a =>
      simp only [validate_validator, halt] at hv
      split at hv
      · exact Except.noConfusion hv
      · split at hv
        · exact Except.noConfusion hv
        · injection hv with h
          injection h with h2
          subst h2
          exact ⟨fun _ _ => rfl, fun _ _ => rfl⟩
    | none =>
      simp only [validate_validator, halt] at hv
      split at hv
      · exact Except.noConfusion hv
      · injection hv with h
        injection h with h2
        rw [dictSet_absent lvs "alerts" _ halt] at h2
        subst h2
        exact ⟨fun k hk => dictGet_append_single lvs k "alerts" _ hk,
          fun a ha => Option.noConfusion ha⟩
  exact ⟨hbfacts.1, hbfacts.2, hvfacts.1, hvfacts.2⟩

/-- Witness for C9 at concrete accepted records (one with alerts present,
one without). -/
theorem c9_validation_frame_witness :
    (validate_bridge 0 (PyVal.vdict [("alias", PyVal.vstr "Alpha"),
        ("target", PyVal.vstr "t"), ("public_address", PyVal.vstr "p"),
        ("alerts", PyVal.vdict [("uptime", PyVal.vbool false)])])
      = Except.ok (PyVal.vdict [("alias", PyVal.vstr "Alpha"),
          ("target", PyVal.vstr "t"), ("public_address", PyVal.vstr "p"),
          ("alerts", PyVal.vdict [("uptime", PyVal.vbool false)])]))
    ∧ ((∀ k, k ≠ "alerts" →
        dictGet [("alias", PyVal.vstr "Alpha"), ("target", PyVal.vstr "t"),
          ("public_address", PyVal.vstr "p"),
          ("alerts", PyVal.vdict [("uptime", PyVal.vbool false)])] k
          = dictGet [("alias", PyVal.vstr "Alpha"), ("target", PyVal.vstr "t"),
              ("public_address", PyVal.vstr "p"),
              ("alerts", PyVal.vdict [("uptime", PyVal.vbool false)])] k)
      ∧ (∀ a, dictGet [("alias", PyVal.vstr "Alpha"), ("target", PyVal.vstr "t"),
          ("public_address", PyVal.vstr "p"),
          ("alerts", PyVal.vdict [("uptime", PyVal.vbool false)])] "alerts" = some a →
            [("alias", PyVal.vstr "Alpha"), ("target", PyVal.vstr "t"),
             ("public_address", PyVal.vstr "p"),
             ("alerts", PyVal.vdict [("uptime", PyVal.vbool false)])]
            = [("alias", PyVal.vstr "Alpha"), ("target", PyVal.vstr "t"),
               ("public_address", PyVal.vstr "p"),
               ("alerts", PyVal.vdict [("uptime", PyVal.vbool false)])])
      ∧ (∀ k, k ≠ "alerts" →
          dictGet ([("alias", PyVal.vstr "Beta"), ("target", PyVal.vstr "t2")]
              ++ [("alerts", PyVal.vdict get_default_validator_alerts)]) k
            = dictGet [("alias", PyVal.vstr "Beta"), ("target", PyVal.vstr "t2")] k)
      ∧ (∀ a, dictGet [("alias", PyVal.vstr "Beta"), ("target", PyVal.vstr "t2")] "alerts"
            = some a →
          ([("alias", PyVal.vstr "Beta"), ("target", PyVal.vstr "t2")]
              ++ [("alerts", PyVal.vdict get_default_validator_alerts)])
            = [("alias", PyVal.vstr "Beta"), ("target", PyVal.vstr "t2")])) :=
  ⟨rfl,
    c9_validation_frame 0 0
      [("alias", PyVal.vstr "Alpha"), ("target", PyVal.vstr "t"),
       ("public_address", PyVal.vstr "p"),
       ("alerts", PyVal.vdict [("uptime", PyVal.vbool false)])]
      [("alias", PyVal.vstr "Alpha"), ("target", PyVal.vstr "t"),
       ("public_address", PyVal.vstr "p"),
       ("alerts", PyVal.vdict [("uptime", PyVal.vbool false)])]
      [("alias", PyVal.vstr "Beta"), ("target", PyVal.vstr "t2")]
      ([("alias", PyVal.vstr "Beta"), ("target", PyVal.vstr "t2")]
        ++ [("alerts", PyVal.vdict get_default_validator_alerts)])
      rfl rfl⟩

-- ------------------------------------------------------------------
-- C7: scheme stripping
-- ------------------------------------------------------------------

/-- A verified prefix can be peeled off and re-attached. -/
lemma isPrefixChars_append_drop :
    ∀ (p s : List Char), isPrefixChars p s = true → p ++ s.drop p.length = s := by
  intro p
  induction p with
  | nil => intro s _; simp
  | cons a as ih =>
    intro s h
    cases s with
    | nil => simp [isPrefixChars] at h
    | cons b bs =>
      simp only [isPrefixChars, Bool.and_eq_true, beq_iff_eq] at h
      obtain ⟨hab, hrest⟩ := h
      subst hab
      simpa [List.drop] using ih bs hrest

/-- Re-attaching the scheme prefix after `startswith`-guarded slicing. -/
lemma startswith_append_drop (x pre : String) (h : startswith x pre = true) :
    pre ++ strDrop x pre.data.length = x := by
  apply String.ext
  rw [String.data_append]
  exact isPrefixChars_append_drop pre.data x.data h

/-- C7 counterexample: scheme stripping is not idempotent.  For the target
"https://a" the first strip yields ("https", "a"), but stripping the clean
target again yields ("http", "a") — the scheme component differs, refuting
`stripScheme(stripScheme(x).raw) == stripScheme(x)`. -/
theorem c7_counterexample :
    strip_scheme ((strip_scheme "https://a").2) ≠ strip_scheme "https://a"
    ∧ strip_scheme "https://a" = ("https", "a")
    ∧ strip_scheme ((strip_scheme "https://a").2) = ("http", "a") := by
  refine ⟨?_, rfl, rfl⟩
  decide

/-- C7 (amended): scheme stripping is lossless — rejoining the inferred
scheme, "://" and the clean target reproduces the original target when it
carried an explicit scheme, and the canonical form `"http://" ++ target`
otherwise.  Stripping is idempotent on the clean-target component whenever
the clean target does not itself start with a scheme prefix, and the full
(scheme, cleanTarget) pair is reproduced by a second strip only in the
default-http case. -/
theorem c7_strip_scheme_lossless (x : String) :
    ((strip_scheme x).1 ++ "://" ++ (strip_scheme x).2
      = (if startswith x "https://" || startswith x "http://" then x else "http://" ++ x))
    ∧ (startswith (strip_scheme x).2 "https://" = false →
        startswith (strip_scheme x).2 "http://" = false →
        strip_scheme ((strip_scheme x).2) = ("http", (strip_scheme x).2))
    ∧ ((strip_scheme x).1 = "http" →
        startswith (strip_scheme x).2 "https://" = false →
        startswith (strip_scheme x).2 "http://" = false →
        strip_scheme ((strip_scheme x).2) = strip_scheme x) := by
  refine ⟨?_, ?_, ?_⟩
  · by_cases h1 : startswith x "https://" = true
    · rw [strip_scheme]
      simp only [h1, if_true, Bool.true_or]
      have := startswith_append_drop x "https://" h1
      apply String.ext
      simpa using congrArg String.data this
    · by_cases h2 : startswith x "http://" = true
      · rw [strip_scheme]
        simp only [h1, h2, Bool.false_eq_true, if_false, if_true, Bool.or_true]
        have := startswith_append_drop x "http://" h2
        apply String.ext
        simpa using congrArg String.data this
      · rw [strip_scheme]
        simp only [h1, h2, Bool.false_eq_true, if_false, Bool.or_self]
        apply String.ext
        simp
  · intro hc1 hc2
    rw [strip_scheme, hc1, hc2]
    simp
  · intro hs hc1 hc2
    have h2 : strip_scheme ((strip_scheme x).2) = ("http", (strip_scheme x).2) := by
      rw [strip_scheme, hc1, hc2]
      simp
    rw [h2]
    have : strip_scheme x = ((strip_scheme x).1, (strip_scheme x).2) := rfl
    rw [this, hs]

/-- Witness for C7 (amended) at the concrete scheme-free target
"10.0.0.1:9100". -/
theorem c7_strip_scheme_lossless_witness :
    (((strip_scheme "10.0.0.1:9100").1 ++ "://" ++ (strip_scheme "10.0.0.1:9100").2
      = (if startswith "10.0.0.1:9100" "https://" || startswith "10.0.0.1:9100" "http://"
          then "10.0.0.1:9100" else "http://" ++ "10.0.0.1:9100"))
    ∧ (startswith (strip_scheme "10.0.0.1:9100").2 "https://" = false →
        startswith (strip_scheme "10.0.0.1:9100").2 "http://" = false →
        strip_scheme ((strip_scheme "10.0.0.1:9100").2)
          = ("http", (strip_scheme "10.0.0.1:9100").2))
    ∧ ((strip_scheme "10.0.0.1:9100").1 = "http" →
        startswith (strip_scheme "10.0.0.1:9100").2 "https://" = false →
        startswith (strip_scheme "10.0.0.1:9100").2 "http://" = false →
        strip_scheme ((strip_scheme "10.0.0.1:9100").2) = strip_scheme "10.0.0.1:9100"))
    ∧ strip_scheme ((strip_scheme "10.0.0.1:9100").2) = strip_scheme "10.0.0.1:9100" :=
  ⟨c7_strip_scheme_lossless "10.0.0.1:9100", by decide⟩

-- String comparisons of the fixed receiver names, as rewrite facts for the
-- receiver-lookup proofs.

lemma nameCmp_default_critical : ("default" == "critical") = false := rfl

lemma nameCmp_critical_critical : ("critical" == "critical") = true := rfl

lemma nameCmp_default_warning : ("default" == "warning") = false := rfl

lemma nameCmp_critical_warning : ("critical" == "warning") = false := rfl

lemma nameCmp_warning_warning : ("warning" == "warning") = true := rfl

/-- C4: when the routing document is generated, the critical receiver carries
the pagerduty channel exactly when an integration key is present, the warning
receiver never carries it, and both receivers carry the telegram channel
exactly when both bot token and chat id are present and the discord channel
exactly when a webhook URL is present (presence = non-empty string). -/
theorem c4_receiver_channels (pk tok cid du port : String)
    (h : exceptOk (generate_alertmanager_config pk tok cid du port) = true) :
    ((amCritical (generate_alertmanager_config pk tok cid du port)).pagerduty_configs.isEmpty
      = (pk == ""))
    ∧ ((amWarning (generate_alertmanager_config pk tok cid du port)).pagerduty_configs = [])
    ∧ ((amCritical (generate_alertmanager_config pk tok cid du port)).telegram_configs.isEmpty
      = !(tok != "" && cid != ""))
    ∧ ((amWarning (generate_alertmanager_config pk tok cid du port)).telegram_configs.isEmpty
      = !(tok != "" && cid != ""))
    ∧ ((amCritical (generate_alertmanager_config pk tok cid du port)).discord_configs.isEmpty
      = (du == ""))
    ∧ ((amWarning (generate_alertmanager_config pk tok cid du port)).discord_configs.isEmpty
      = (du == "")) := by
  cases htg : (tok != "" && cid != "") with
  | true =>
    cases hp : pyToInt cid with
    | none =>
      exfalso
      rw [generate_alertmanager_config, buildCriticalReceiver] at h
      simp only [htg, hp, if_true] at h
      simp [exceptOk] at h
    | some n =>
      by_cases hpd : (pk != "") = true
      · have hpd2 : (pk == "") = false := by simpa using hpd
        by_cases hdc : (du != "") = true
        · have hdc2 : (du == "") = false := by simpa using hdc
          simp [generate_alertmanager_config, buildCriticalReceiver, buildWarningReceiver,
            amCritical, amWarning, findReceiver, defaultReceiverDef, setPagerdutyConfigs,
            setTelegramConfigs, setDiscordConfigs, htg, hp, hpd, hdc, hpd2, hdc2,
            nameCmp_default_critical, nameCmp_critical_critical, nameCmp_default_warning,
            nameCmp_critical_warning, nameCmp_warning_warning]
        · have hdc1 : (du != "") = false := by simpa using hdc
          have hdc2 : (du == "") = true := by simpa using hdc
          simp [generate_alertmanager_config, buildCriticalReceiver, buildWarningReceiver,
            amCritical, amWarning, findReceiver, defaultReceiverDef, setPagerdutyConfigs,
            setTelegramConfigs, setDiscordConfigs, htg, hp, hpd, hdc1, hpd2, hdc2,
            nameCmp_default_critical, nameCmp_critical_critical, nameCmp_default_warning,
            nameCmp_critical_warning, nameCmp_warning_warning]
      · have hpd1 : (pk != "") = false := by simpa using hpd
        have hpd2 : (pk == "") = true := by simpa using hpd
        by_cases hdc : (du != "") = true
        · have hdc2 : (du == "") = false := by simpa using hdc
          simp [generate_alertmanager_config, buildCriticalReceiver, buildWarningReceiver,
            amCritical, amWarning, findReceiver, defaultReceiverDef, setPagerdutyConfigs,
            setTelegramConfigs, setDiscordConfigs, htg, hp, hpd1, hdc, hpd2, hdc2,
            nameCmp_default_critical, nameCmp_critical_critical, nameCmp_default_warning,
            nameCmp_critical_warning, nameCmp_warning_warning]
        · have hdc1 : (du != "") = false := by simpa using hdc
          have hdc2 : (du == "") = true := by simpa using hdc
          simp [generate_alertmanager_config, buildCriticalReceiver, buildWarningReceiver,
            amCritical, amWarning, findReceiver, defaultReceiverDef, setPagerdutyConfigs,
            setTelegramConfigs, setDiscordConfigs, htg, hp, hpd1, hdc1, hpd2, hdc2,
            nameCmp_default_critical, nameCmp_critical_critical, nameCmp_default_warning,
            nameCmp_critical_warning, nameCmp_warning_warning]
  | false =>
    by_cases hpd : (pk != "") = true
    · have hpd2 : (pk == "") = false := by simpa using hpd
      by_cases hdc : (du != "") = true
      · have hdc2 : (du == "") = false := by simpa using hdc
        simp [generate_alertmanager_config, buildCriticalReceiver, buildWarningReceiver,
          amCritical, amWarning, findReceiver, defaultReceiverDef, setPagerdutyConfigs,
          setTelegramConfigs, setDiscordConfigs, htg, hpd, hdc, hpd2, hdc2,
          nameCmp_default_critical, nameCmp_critical_critical, nameCmp_default_warning,
          nameCmp_critical_warning, nameCmp_warning_warning]
      · have hdc1 : (du != "") = false := by simpa using hdc
        have hdc2 : (du == "") = true := by simpa using hdc
        simp [generate_alertmanager_config, buildCriticalReceiver, buildWarningReceiver,
          amCritical, amWarning, findReceiver, defaultReceiverDef, setPagerdutyConfigs,
          setTelegramConfigs, setDiscordConfigs, htg, hpd, hdc1, hpd2, hdc2,
          nameCmp_default_critical, nameCmp_critical_critical, nameCmp_default_warning,
          nameCmp_critical_warning, nameCmp_warning_warning]
    · have hpd1 : (pk != "") = false := by simpa using hpd
      have hpd2 : (pk == "") = true := by simpa using hpd
      by_cases hdc : (du != "") = true
      · have hdc2 : (du == "") = false := by simpa using hdc
        simp [generate_alertmanager_config, buildCriticalReceiver, buildWarningReceiver,
          amCritical, amWarning, findReceiver, defaultReceiverDef, setPagerdutyConfigs,
          setTelegramConfigs, setDiscordConfigs, htg, hpd1, hdc, hpd2, hdc2,
          nameCmp_default_critical, nameCmp_critical_critical, nameCmp_default_warning,
          nameCmp_critical_warning, nameCmp_warning_warning]
      · have hdc1 : (du != "") = false := by simpa using hdc
        have hdc2 : (du == "") = true := by simpa using hdc
        simp [generate_alertmanager_config, buildCriticalReceiver, buildWarningReceiver,
          amCritical, amWarning, findReceiver, defaultReceiverDef, setPagerdutyConfigs,
          setTelegramConfigs, setDiscordConfigs, htg, hpd1, hdc1, hpd2, hdc2,
          nameCmp_default_critical, nameCmp_critical_critical, nameCmp_default_warning,
          nameCmp_critical_warning, nameCmp_warning_warning]

/-- Witness for C4 with pagerduty and telegram configured (chat id "99") and
discord absent. -/
theorem c4_receiver_channels_witness :
    (exceptOk (generate_alertmanager_config "pdkey" "bottoken" "99" "" "3001") = true)
    ∧ (((amCritical (generate_alertmanager_config "pdkey" "bottoken" "99" "" "3001")).pagerduty_configs.isEmpty
        = ("pdkey" == ""))
      ∧ ((amWarning (generate_alertmanager_config "pdkey" "bottoken" "99" "" "3001")).pagerduty_configs = [])
      ∧ ((amCritical (generate_alertmanager_config "pdkey" "bottoken" "99" "" "3001")).telegram_configs.isEmpty
        = !("bottoken" != "" && "99" != ""))
      ∧ ((amWarning (generate_alertmanager_config "pdkey" "bottoken" "99" "" "3001")).telegram_configs.isEmpty
        = !("bottoken" != "" && "99" != ""))
      ∧ ((amCritical (generate_alertmanager_config "pdkey" "bottoken" "99" "" "3001")).discord_configs.isEmpty
        = ("" == ""))
      ∧ ((amWarning (generate_alertmanager_config "pdkey" "bottoken" "99" "" "3001")).discord_configs.isEmpty
        = ("" == ""))) :=
  ⟨rfl, c4_receiver_channels "pdkey" "bottoken" "99" "" "3001" rfl⟩

/-- C5: whenever the telegram bot token and chat id are both present but the
chat id does not parse as an integer, generation of the routing document
fails with an error (it never emits a document with the telegram channel
silently dropped). -/
theorem c5_nonnumeric_chat_id_fails (pk tok cid du port : String)
    (ht : (tok != "") = true) (hc : (cid != "") = true) (hp : pyToInt cid = none) :
    generate_alertmanager_config pk tok cid du port
      = Except.error ("invalid literal for int with base 10: " ++ cid) := by
  rw [generate_alertmanager_config, buildCriticalReceiver]
  simp only [ht, hc, Bool.and_self, if_true, hp]

/-- Witness for C5 at the concrete non-numeric chat id "abc". -/
theorem c5_nonnumeric_chat_id_fails_witness :
    (("bottoken" != "") = true)
    ∧ (("abc" != "") = true)
    ∧ (pyToInt "abc" = none)
    ∧ (generate_alertmanager_config "" "bottoken" "abc" "" "3001"
      = Except.error ("invalid literal for int with base 10: " ++ "abc")) :=
  ⟨rfl, rfl, rfl, c5_nonnumeric_chat_id_fails "" "bottoken" "abc" "" "3001" rfl rfl rfl⟩

-- Projection facts for the receiver-update functions.

lemma name_setPagerdutyConfigs (r : Receiver) (l : List PagerdutyConfig) :
    (setPagerdutyConfigs r l).name = r.name := rfl

lemma name_setTelegramConfigs (r : Receiver) (l : List TelegramConfig) :
    (setTelegramConfigs r l).name = r.name := rfl

lemma name_setDiscordConfigs (r : Receiver) (l : List DiscordConfig) :
    (setDiscordConfigs r l).name = r.name := rfl

lemma telegram_setPagerdutyConfigs (r : Receiver) (l : List PagerdutyConfig) :
    (setPagerdutyConfigs r l).telegram_configs = r.telegram_configs := rfl

lemma telegram_setDiscordConfigs (r : Receiver) (l : List DiscordConfig) :
    (setDiscordConfigs r l).telegram_configs = r.telegram_configs := rfl

lemma pagerduty_setTelegramConfigs (r : Receiver) (l : List TelegramConfig) :
    (setTelegramConfigs r l).pagerduty_configs = r.pagerduty_configs := rfl

lemma pagerduty_setDiscordConfigs (r : Receiver) (l : List DiscordConfig) :
    (setDiscordConfigs r l).pagerduty_configs = r.pagerduty_configs := rfl

lemma discord_setPagerdutyConfigs (r : Receiver) (l : List PagerdutyConfig) :
    (setPagerdutyConfigs r l).discord_configs = r.discord_configs := rfl

lemma discord_setTelegramConfigs (r : Receiver) (l : List TelegramConfig) :
    (setTelegramConfigs r l).discord_configs = r.discord_configs := rfl

/-- Channel-exclusion facts for the generated receivers, fully case-split on
credential presence and chat-id parsability. -/
lemma am_channel_exclusions (pk tok cid du port : String) :
    (exceptOk (generate_alertmanager_config pk tok cid du port)
      = !(tok != "" && (cid != "" && (pyToInt cid).isNone)))
    ∧ ((tok != "" && cid != "") = false →
        (amCritical (generate_alertmanager_config pk tok cid du port)).telegram_configs = []
        ∧ (amWarning (generate_alertmanager_config pk tok cid du port)).telegram_configs = [])
    ∧ ((pk != "") = false →
        (amCritical (generate_alertmanager_config pk tok cid du port)).pagerduty_configs = [])
    ∧ ((du != "") = false →
        (amCritical (generate_alertmanager_config pk tok cid du port)).discord_configs = []
        ∧ (amWarning (generate_alertmanager_config pk tok cid du port)).discord_configs = []) := by
  cases ht : (tok != "") <;> cases hc : (cid != "") <;> cases hpd : (pk != "") <;>
    cases hdu : (du != "") <;> cases hp : pyToInt cid <;>
      simp [generate_alertmanager_config, buildCriticalReceiver, buildWarningReceiver,
        amCritical, amWarning, findReceiver, defaultReceiverDef, setPagerdutyConfigs,
        setTelegramConfigs, setDiscordConfigs, exceptOk, nameCmp_default_critical,
        nameCmp_critical_critical, nameCmp_default_warning, nameCmp_critical_warning,
        nameCmp_warning_warning, ht, hc, hpd, hdu, hp]

/-- C10: a credential field present but equal to the empty string is treated
as absent.  Generation fails only when telegram is actually configured (both
strings non-empty) with an unparsable chat id — in particular a present bot
token with an empty chat id yields a document without the telegram channel
rather than a failure — and an empty pagerduty key, bot token, chat id or
discord URL excludes the corresponding channel from the receivers, without
raising any error. -/
theorem c10_empty_credentials_treated_absent (pk tok cid du port : String) :
    (exceptOk (generate_alertmanager_config pk tok cid du port)
      = !(tok != "" && (cid != "" && (pyToInt cid).isNone)))
    ∧ ((amCritical (generate_alertmanager_config pk tok "" du port)).telegram_configs = [])
    ∧ ((amWarning (generate_alertmanager_config pk tok "" du port)).telegram_configs = [])
    ∧ ((amCritical (generate_alertmanager_config pk "" cid du port)).telegram_configs = [])
    ∧ ((amWarning (generate_alertmanager_config pk "" cid du port)).telegram_configs = [])
    ∧ ((amCritical (generate_alertmanager_config "" tok cid du port)).pagerduty_configs = [])
    ∧ ((amCritical (generate_alertmanager_config pk tok cid "" port)).discord_configs = [])
    ∧ ((amWarning (generate_alertmanager_config pk tok cid "" port)).discord_configs = []) := by
  refine ⟨(am_channel_exclusions pk tok cid du port).1,
    ((am_channel_exclusions pk tok "" du port).2.1 (by simp)).1,
    ((am_channel_exclusions pk tok "" du port).2.1 (by simp)).2,
    ((am_channel_exclusions pk "" cid du port).2.1 (by simp)).1,
    ((am_channel_exclusions pk "" cid du port).2.1 (by simp)).2,
    (am_channel_exclusions "" tok cid du port).2.2.1 rfl,
    ((am_channel_exclusions pk tok cid "" port).2.2.2 rfl).1,
    ((am_channel_exclusions pk tok cid "" port).2.2.2 rfl).2⟩

-- ------------------------------------------------------------------
-- C8: characterization of validation failure
-- ------------------------------------------------------------------

/-- Specification-side predicate, following the claim's words: a required
field is "missing or empty" (empty = Python-falsy, the emptiness test the
validator applies). -/
def specFieldMissingOrEmpty (kvs : List (String × PyVal)) (f2 : String) : Bool :=
  match dictGet kvs f2 with
  | none => true
  | some v => !truthy v

/-- Specification-side predicate: some alerts entry has a key outside the
valid key set or a non-boolean value. -/
def specAlertsEntriesBad (valid : List String) (entries : List (String × PyVal)) : Bool :=
  entries.any (fun kv => !valid.contains kv.1 || !isBoolVal kv.2)

/-- The claim's error conditions for one bridge record, exactly as stated:
not a record, a required field missing or empty, or a bad alerts entry.  (A
present non-mapping alerts value matches none of the stated conditions.) -/
def claimBridgeRecordInvalid (r : PyVal) : Bool :=
  match r with
  | PyVal.vdict kvs =>
    (["alias", "target", "public_address"].any (specFieldMissingOrEmpty kvs))
      || (match dictGet kvs "alerts" with
          | some (PyVal.vdict entries) => specAlertsEntriesBad valid_alert_types entries
          | _ => false)
  | _ => true

/-- The claim's error conditions for the whole bridges input. -/
def claimBridgesInvalid (v : PyVal) : Bool :=
  match v with
  | PyVal.vlist xs => xs.any claimBridgeRecordInvalid
  | _ => true

/-- Amended error conditions for one bridge record: additionally, an alerts
field that is present but not a mapping is an error. -/
def specBridgeRecordInvalid (r : PyVal) : Bool :=
  match r with
  | PyVal.vdict kvs =>
    (["alias", "target", "public_address"].any (specFieldMissingOrEmpty kvs))
      || (match dictGet kvs "alerts" with
          | some (PyVal.vdict entries) => specAlertsEntriesBad valid_alert_types entries
          | some _ => true
          | none => false)
  | _ => true

/-- Amended error conditions for the whole bridges input. -/
def specBridgesInvalid (v : PyVal) : Bool :=
  match v with
  | PyVal.vlist xs => xs.any specBridgeRecordInvalid
  | _ => true

/-- Amended error conditions for one validator record (required fields are
`alias` and `target`; the validator key set applies). -/
def specValidatorRecordInvalid (r : PyVal) : Bool :=
  match r with
  | PyVal.vdict kvs =>
    (["alias", "target"].any (specFieldMissingOrEmpty kvs))
      || (match dictGet kvs "alerts" with
          | some (PyVal.vdict entries) => specAlertsEntriesBad valid_validator_alert_types entries
          | some _ => true
          | none => false)
  | _ => true

/-- Amended error conditions for the whole validators input. -/
def specValidatorsInvalid (v : PyVal) : Bool :=
  match v with
  | PyVal.vlist xs => xs.any specValidatorRecordInvalid
  | _ => true

lemma checkRequiredFields_ok_iff (kindName : String) (i : Nat) (kvs : List (String × PyVal)) :
    ∀ fields : List String,
      exceptOk (checkRequiredFields kindName i kvs fields)
        = !(fields.any (specFieldMissingOrEmpty kvs)) := by
  intro fields
  induction fields with
  | nil => rfl
  | cons f2 rest ih =>
    cases hd : dictGet kvs f2 with
    | none =>
      simp [checkRequiredFields, hd, specFieldMissingOrEmpty, exceptOk]
    | some v =>
      cases htv : truthy v with
      | true =>
        simp [checkRequiredFields, hd, htv, specFieldMissingOrEmpty, ih]
      | false =>
        simp [checkRequiredFields, hd, htv, specFieldMissingOrEmpty, exceptOk]

lemma exceptOk_error_eq {α : Type} (e : String) (b : Bool)
    (h : exceptOk (Except.error e : Except String α) = b) : b = false := by
  revert h
  cases b <;> simp [exceptOk]

lemma exceptOk_ok_eq {α : Type} (a : α) (b : Bool)
    (h : exceptOk (Except.ok a : Except String α) = b) : b = true := by
  revert h
  cases b <;> simp [exceptOk]

lemma bool_true_of_not_false (X : Bool) (h : (!X) = false) : X = true := by
  revert h
  cases X <;> simp

lemma bool_false_of_not_true (X : Bool) (h : (!X) = true) : X = false := by
  revert h
  cases X <;> simp

lemma checkAlertEntries_ok_iff (kindName : String) (valid : List String) (i : Nat) :
    ∀ entries : List (String × PyVal),
      exceptOk (checkAlertEntries kindName valid i entries)
        = !(specAlertsEntriesBad valid entries) := by
  intro entries
  induction entries with
  | nil => rfl
  | cons hd tl ih =>
    obtain ⟨k, v⟩ := hd
    by_cases hc : k ∈ valid
    · cases v with
      | vbool b =>
        simp [checkAlertEntries, hc, specAlertsEntriesBad, isBoolVal, exceptOk] at ih ⊢
        exact ih
      | vnone => simp [checkAlertEntries, hc, specAlertsEntriesBad, isBoolVal, exceptOk]
      | vint n => simp [checkAlertEntries, hc, specAlertsEntriesBad, isBoolVal, exceptOk]
      | vstr s => simp [checkAlertEntries, hc, specAlertsEntriesBad, isBoolVal, exceptOk]
      | vlist xs => simp [checkAlertEntries, hc, specAlertsEntriesBad, isBoolVal, exceptOk]
      | vdict kvs => simp [checkAlertEntries, hc, specAlertsEntriesBad, isBoolVal, exceptOk]
    · simp [checkAlertEntries, hc, specAlertsEntriesBad, isBoolVal, exceptOk]

lemma validate_bridge_ok_iff (i : Nat) (r : PyVal) :
    exceptOk (validate_bridge i r) = !(specBridgeRecordInvalid r) := by
  cases r with
  | vdict kvs =>
    cases hreq : checkRequiredFields "Bridge" i kvs ["alias", "target", "public_address"] with
    | error e =>
      have h := checkRequiredFields_ok_iff "Bridge" i kvs ["alias", "target", "public_address"]
      rw [hreq] at h
      have hX := bool_true_of_not_false _ (exceptOk_error_eq e _ h)
      simp only [validate_bridge, hreq, specBridgeRecordInvalid, hX, Bool.true_or,
        Bool.not_true, exceptOk]
    | ok u =>
      have h := checkRequiredFields_ok_iff "Bridge" i kvs ["alias", "target", "public_address"]
      rw [hreq] at h
      have hX := bool_false_of_not_true _ (exceptOk_ok_eq u _ h)
      cases halt : dictGet kvs "alerts" with
      | none =>
        simp only [validate_bridge, hreq, halt, specBridgeRecordInvalid, hX, Bool.false_or,
          Bool.not_false, exceptOk]
      | some a =>
        cases a with
        | vdict entries =>
          have ha := checkAlertEntries_ok_iff "Bridge" valid_alert_types i entries
          cases hca : checkAlertEntries "Bridge" valid_alert_types i entries with
          | error e =>
            rw [hca] at ha
            have hA := bool_true_of_not_false _ (exceptOk_error_eq e _ ha)
            simp only [validate_bridge, hreq, halt, validate_alerts_config, hca,
              specBridgeRecordInvalid, hX, hA, Bool.false_or, Bool.not_true, exceptOk]
          | ok u2 =>
            rw [hca] at ha
            have hA := bool_false_of_not_true _ (exceptOk_ok_eq u2 _ ha)
            simp only [validate_bridge, hreq, halt, validate_alerts_config, hca,
              specBridgeRecordInvalid, hX, hA, Bool.false_or, Bool.not_false, exceptOk]
        | vnone =>
          simp only [validate_bridge, hreq, halt, validate_alerts_config,
            specBridgeRecordInvalid, hX, Bool.false_or, Bool.not_true, exceptOk]
        | vbool b =>
          simp only [validate_bridge, hreq, halt, validate_alerts_config,
            specBridgeRecordInvalid, hX, Bool.false_or, Bool.not_true, exceptOk]
        | vint n =>
          simp only [validate_bridge, hreq, halt, validate_alerts_config,
            specBridgeRecordInvalid, hX, Bool.false_or, Bool.not_true, exceptOk]
        | vstr s =>
          simp only [validate_bridge, hreq, halt, validate_alerts_config,
            specBridgeRecordInvalid, hX, Bool.false_or, Bool.not_true, exceptOk]
        | vlist xs =>
          simp only [validate_bridge, hreq, halt, validate_alerts_config,
            specBridgeRecordInvalid, hX, Bool.false_or, Bool.not_true, exceptOk]
  | vnone => rfl
  | vbool b => rfl
  | vint n => rfl
  | vstr s => rfl
  | vlist xs => rfl

lemma validate_validator_ok_iff (i : Nat) (r : PyVal) :
    exceptOk (validate_validator i r) = !(specValidatorRecordInvalid r) := by
  cases r with
  | vdict kvs =>
    cases hreq : checkRequiredFields "Validator" i kvs ["alias", "target"] with
    | error e =>
      have h := checkRequiredFields_ok_iff "Validator" i kvs ["alias", "target"]
      rw [hreq] at h
      have hX := bool_true_of_not_false _ (exceptOk_error_eq e _ h)
      simp only [validate_validator, hreq, specValidatorRecordInvalid, hX, Bool.true_or,
        Bool.not_true, exceptOk]
    | ok u =>
      have h := checkRequiredFields_ok_iff "Validator" i kvs ["alias", "target"]
      rw [hreq] at h
      have hX := bool_false_of_not_true _ (exceptOk_ok_eq u _ h)
      cases halt : dictGet kvs "alerts" with
      | none =>
        simp only [validate_validator, hreq, halt, specValidatorRecordInvalid, hX,
          Bool.false_or, Bool.not_false, exceptOk]
      | some a =>
        cases a with
        | vdict entries =>
          have ha := checkAlertEntries_ok_iff "Validator" valid_validator_alert_types i entries
          cases hca : checkAlertEntries "Validator" valid_validator_alert_types i entries with
          | error e =>
            rw [hca] at ha
            have hA := bool_true_of_not_false _ (exceptOk_error_eq e _ ha)
            simp only [validate_validator, hreq, halt, validate_validator_alerts_config, hca,
              specValidatorRecordInvalid, hX, hA, Bool.false_or, Bool.not_true, exceptOk]
          | ok u2 =>
            rw [hca] at ha
            have hA := bool_false_of_not_true _ (exceptOk_ok_eq u2 _ ha)
            simp only [validate_validator, hreq, halt, validate_validator_alerts_config, hca,
              specValidatorRecordInvalid, hX, hA, Bool.false_or, Bool.not_false, exceptOk]
        | vnone =>
          simp only [validate_validator, hreq, halt, validate_validator_alerts_config,
            specValidatorRecordInvalid, hX, Bool.false_or, Bool.not_true, exceptOk]
        | vbool b =>
          simp only [validate_validator, hreq, halt, validate_validator_alerts_config,
            specValidatorRecordInvalid, hX, Bool.false_or, Bool.not_true, exceptOk]
        | vint n =>
          simp only [validate_validator, hreq, halt, validate_validator_alerts_config,
            specValidatorRecordInvalid, hX, Bool.false_or, Bool.not_true, exceptOk]
        | vstr s =>
          simp only [validate_validator, hreq, halt, validate_validator_alerts_config,
            specValidatorRecordInvalid, hX, Bool.false_or, Bool.not_true, exceptOk]
        | vlist xs =>
          simp only [validate_validator, hreq, halt, validate_validator_alerts_config,
            specValidatorRecordInvalid, hX, Bool.false_or, Bool.not_true, exceptOk]
  | vnone => rfl
  | vbool b => rfl
  | vint n => rfl
  | vstr s => rfl
  | vlist xs => rfl

lemma validateBridgeList_ok_iff :
    ∀ (xs : List PyVal) (i : Nat),
      exceptOk (validateBridgeList i xs) = xs.all (fun r => !specBridgeRecordInvalid r) := by
  intro xs
  induction xs with
  | nil => intro i; rfl
  | cons x rest ih =>
    intro i
    have hx := validate_bridge_ok_iff i x
    cases hvx : validate_bridge i x with
    | error e =>
      rw [hvx] at hx
      have hX := bool_true_of_not_false _ (exceptOk_error_eq e _ hx)
      simp only [validateBridgeList, hvx, exceptOk, List.all_cons, hX, Bool.not_true,
        Bool.false_and]
    | ok b2 =>
      rw [hvx] at hx
      have hX := bool_false_of_not_true _ (exceptOk_ok_eq b2 _ hx)
      cases hrest : validateBridgeList (i + 1) rest with
      | error e =>
        have hr := ih (i + 1)
        rw [hrest] at hr
        have hR := exceptOk_error_eq e _ hr
        simp only [validateBridgeList, hvx, hrest, exceptOk, List.all_cons, hR, Bool.and_false]
      | ok rest2 =>
        have hr := ih (i + 1)
        rw [hrest] at hr
        have hR := exceptOk_ok_eq rest2 _ hr
        simp only [validateBridgeList, hvx, hrest, exceptOk, List.all_cons, hR, hX,
          Bool.not_false, Bool.true_and]

lemma validateValidatorList_ok_iff :
    ∀ (xs : List PyVal) (i : Nat),
      exceptOk (validateValidatorList i xs)
        = xs.all (fun r => !specValidatorRecordInvalid r) := by
  intro xs
  induction xs with
  | nil => intro i; rfl
  | cons x rest ih =>
    intro i
    have hx := validate_validator_ok_iff i x
    cases hvx : validate_validator i x with
    | error e =>
      rw [hvx] at hx
      have hX := bool_true_of_not_false _ (exceptOk_error_eq e _ hx)
      simp only [validateValidatorList, hvx, exceptOk, List.all_cons, hX, Bool.not_true,
        Bool.false_and]
    | ok b2 =>
      rw [hvx] at hx
      have hX := bool_false_of_not_true _ (exceptOk_ok_eq b2 _ hx)
      cases hrest : validateValidatorList (i + 1) rest with
      | error e =>
        have hr := ih (i + 1)
        rw [hrest] at hr
        have hR := exceptOk_error_eq e _ hr
        simp only [validateValidatorList, hvx, hrest, exceptOk, List.all_cons, hR,
          Bool.and_false]
      | ok rest2 =>
        have hr := ih (i + 1)
        rw [hrest] at hr
        have hR := exceptOk_ok_eq rest2 _ hr
        simp only [validateValidatorList, hvx, hrest, exceptOk, List.all_cons, hR, hX,
          Bool.not_false, Bool.true_and]

lemma all_not_eq_not_any (p : PyVal → Bool) :
    ∀ xs : List PyVal, (xs.all fun r => !p r) = !xs.any p := by
  intro xs
  induction xs with
  | nil => rfl
  | cons x rest ih =>
    simp only [List.all_cons, List.any_cons, Bool.not_or, ih]

/-- C8 counterexample: a bridge record with every required field present and
non-empty whose `alerts` value is the string "x".  None of the claim's
stated error conditions holds (it is a sequence of records, no required field
is missing or empty, and a non-mapping alerts value has no entries), yet
validation fails — the claim's list of failure conditions is incomplete. -/
theorem c8_counterexample :
    claimBridgesInvalid (PyVal.vlist [PyVal.vdict
        [("alias", PyVal.vstr "Alpha"), ("target", PyVal.vstr "t"),
         ("public_address", PyVal.vstr "p"), ("alerts", PyVal.vstr "x")]]) = false
    ∧ exceptOk (validate_bridges_config (PyVal.vlist [PyVal.vdict
        [("alias", PyVal.vstr "Alpha"), ("target", PyVal.vstr "t"),
         ("public_address", PyVal.vstr "p"), ("alerts", PyVal.vstr "x")]])) = false :=
  ⟨rfl, rfl⟩

/-- C8 (amended): validation of a raw entity list fails exactly when the
input is not a sequence of records, a required field (alias, target, and for
bridges public_address) is missing or empty (Python-falsy), an alerts field
is present but is not a mapping, an alerts entry has a key outside the valid
key set for the kind, or an alerts value is not a boolean; on every other
input it succeeds. -/
theorem c8_validation_error_conditions (bv vv : PyVal) :
    exceptOk (validate_bridges_config bv) = !(specBridgesInvalid bv)
    ∧ exceptOk (validate_validators_config vv) = !(specValidatorsInvalid vv) := by
  constructor
  · cases bv with
    | vlist xs =>
      simp only [validate_bridges_config, specBridgesInvalid, validateBridgeList_ok_iff xs 0,
        all_not_eq_not_any]
    | vnone => rfl
    | vbool b => rfl
    | vint n => rfl
    | vstr s => rfl
    | vdict kvs => rfl
  · cases vv with
    | vlist xs =>
      simp only [validate_validators_config, specValidatorsInvalid,
        validateValidatorList_ok_iff xs 0, all_not_eq_not_any]
    | vnone => rfl
    | vbool b => rfl
    | vint n => rfl
    | vstr s => rfl
    | vdict kvs => rfl
